import Mathlib

/-!
# pg_smile: network registry, evidence key, belief cache, confidence scorer

A shallow embedding of `src/smile_c.cpp` (the C wrapper around the SMILE
inference library) and of `src/smile_funcs.c` (the PostgreSQL entry point
`smile_infer`).

Conventions of the embedding.

* C arrays are functions from indices (`Nat → _`): an array has no length of
  its own, the loops of the source fix which indices are read and written.
  The two-dimensional `prob_hash` is one such array of cells, row after row,
  so that an index past the end of a row is a cell of the next row.
* C strings are `String`; `strcmp(a, b) == 0` is `a = b` and `!s[0]` is
  `s = ""`.
* `double` is an arbitrary linearly ordered field `R` (exact arithmetic); the
  theorems about `pow` take `R = ℝ`.
* `static` variables of the source are the fields of `State`, threaded through
  every call.  Two counters, `reads` and `updates`, are instrumentation only:
  they count the calls to `ReadFile` and to `UpdateBeliefs`.
* What the source calls but does not define is a field of `Env`: the Jenkins
  `hash` (declared in `include/bj_hash.h`), and the SMILE library behind
  `ReadFile` and `UpdateBeliefs`.
-/

namespace PgSmile

/-! ## Constants of `smile_c.h` and `bj_hash.h` -/

def LEN_STRING : Nat := 256
def MAX_UB1 : Nat := 256
def MAX_NODES : Nat := 1024
def NUM_TARG_NODES : Nat := 2
def EVIDENCE_OFFSET : Nat := 1

def SMILE_OK : Int := 0
def SMILE_BAD_XDSL : Int := 1
def SMILE_BAD_TARGET_NAME : Int := 2
def SMILE_BAD_EVIDENCE_NAME : Int := 3
def SMILE_TARGET_SIZE_DIFF_FROM_COUNT : Int := 4
def SMILE_INVALID_VALUE : Int := 5

/-- The macro `hashsize(n) = ((ub4)1<<(n))`. -/
def hashsize (n : Nat) : Nat := 1 <<< n

/-- The macro `hashmask(n) = (hashsize(n)-1)`. -/
def hashmask (n : Nat) : Nat := hashsize n - 1

/-- SMILE's error code for a failed `FindNode` (`DSL_OUT_OF_RANGE`, a negative constant). -/
def DSL_OUT_OF_RANGE : Int := -2

/-- The conversion `(ub1) x` of an `int` to an unsigned byte: reduction modulo 256. -/
def ub1 (x : Int) : Nat := (x % 256).toNat

/-- The bytes of a C string, as passed to `hash` with `strlen` as length. -/
def cbytes (s : String) : List Nat := s.toUTF8.data.toList.map UInt8.toNat

/-! ## Data model -/

/-- The part of a SMILE network object the wrapper reads: its nodes, addressed
by handle `0 .. GetNumberOfNodes()-1`, each with its identifier (`GetId`) and
its outcome names (`GetOutcomesNames`). -/
structure DSL_network where
  nodes : List (String × List String)
deriving DecidableEq

/-- `GetNumberOfNodes()`. -/
def DSL_network.GetNumberOfNodes (nw : DSL_network) : Nat := nw.nodes.length

/-- `FindNode(name)`: the handle of the node with that identifier, or `DSL_OUT_OF_RANGE`. -/
def DSL_network.FindNode (nw : DSL_network) (name : String) : Int :=
  let i := (nw.nodes.map Prod.fst).indexOf name
  if i < nw.nodes.length then (i : Int) else DSL_OUT_OF_RANGE

/-- `GetNode(id)->GetId()`; the empty string stands for an invalid handle. -/
def DSL_network.GetId (nw : DSL_network) (id : Int) : String :=
  if id < 0 then "" else ((nw.nodes.get? id.toNat).map Prod.fst).getD ""

/-- `GetNode(id)->Definition()->GetOutcomesNames()`; `GetNumberOfOutcomes()` is its length. -/
def DSL_network.outcomes (nw : DSL_network) (id : Int) : List String :=
  if id < 0 then [] else ((nw.nodes.get? id.toNat).map Prod.snd).getD []

/-- The C `struct net`: a network pointer (`none` is `NULL`) and its id. -/
structure net where
  ptr : Option DSL_network
  id : Int
deriving DecidableEq

/-- The C `struct node`. -/
structure node where
  name : String
  id : Int
  state : String
  stateid : Int
  count : Int
deriving DecidableEq

instance : Inhabited node := ⟨⟨"", 0, "", 0, 0⟩⟩

/-- What the source calls without defining it. `hash k initval` is the Jenkins
hash of the byte sequence `k` (its length is the `len` argument). `ReadFile`
is the parse of an `.xdsl` file (`none`: a negative return code). `posterior
nw ev t` is what `GetNode(t)->Value()` holds after `UpdateBeliefs()` when the
evidence `ev` (handle, state index; in the order of the `SetEvidence` calls)
has been set on a cleared network: `none` when `IsValueValid()` is false,
otherwise the `GetSize()` entries of `GetMatrix()`. -/
structure Env (R : Type) where
  hash : List Nat → Nat → Nat
  ReadFile : String → Option DSL_network
  posterior : DSL_network → List (Int × Int) → Int → Option (List R)

/-- The `static` variables: `nets` and `curr_id` of `getNetwork`, `prob_hash`
of `getProb`; `reads` and `updates` count the calls to `ReadFile` and
`UpdateBeliefs`. The array `prob_hash[hashsize(16)][MAX_UB1]` is kept as C
lays it out, one row of `MAX_UB1` doubles after the other: `prob_hash[h][i]`
is the cell `h * MAX_UB1 + i`, whether or not `i` is below `MAX_UB1`. -/
structure State (R : Type) where
  nets : Nat → net
  curr_id : Int
  prob_hash : Nat → R
  reads : Nat
  updates : Nat

/-- The state at process start: all statics zero-initialised. -/
def State.init (R : Type) [Zero R] : State R :=
  { nets := fun _ => ⟨none, 0⟩, curr_id := 0, prob_hash := fun _ => 0, reads := 0, updates := 0 }

variable {R : Type}

/-! ## `smile_c.cpp` -/

/-- The function `getNetwork` (smile_c.cpp:33-56). -/
def getNetwork (E : Env R) (s : State R) (fname : String) : State R × net :=
  let h := (E.hash (cbytes fname) 0) &&& hashmask 10
  if (s.nets h).ptr = none then
    -- new DSL_network(); ReadFile; on failure delete and reset to NULL
    let n : net := { ptr := E.ReadFile fname, id := s.curr_id }
    ({ s with nets := Function.update s.nets h n, curr_id := s.curr_id + 1, reads := s.reads + 1 }, n)
  else
    (s, s.nets h)

/-- The function `checkFileName` (smile_c.cpp:68-77). -/
def checkFileName (E : Env R) (s : State R) (fname : String) : State R × Int :=
  let r := getNetwork E s fname
  match r.2.ptr with
  | none => (r.1, SMILE_BAD_XDSL)
  | some _ => (r.1, SMILE_OK)

/-- The function `getNumNodes` (smile_c.cpp:79-88). -/
def getNumNodes (E : Env R) (s : State R) (fname : String) : State R × Int :=
  let r := getNetwork E s fname
  match r.2.ptr with
  | none => (r.1, -1)
  | some nw => (r.1, (nw.GetNumberOfNodes : Int))

/-- The function `getNodeNameLen` (smile_c.cpp:90-99): `strlen` of the node identifier. -/
def getNodeNameLen (E : Env R) (s : State R) (fname : String) (id : Int) : State R × Nat :=
  let r := getNetwork E s fname
  match r.2.ptr with
  | none => (r.1, 0)
  | some nw => (r.1, (cbytes (nw.GetId id)).length)

/-- The function `copyNodeName` (smile_c.cpp:101-110): `none` is the null return. -/
def copyNodeName (E : Env R) (s : State R) (fname : String) (id : Int) : State R × Option String :=
  let r := getNetwork E s fname
  match r.2.ptr with
  | none => (r.1, none)
  | some nw => (r.1, some (nw.GetId id))

/-- The function `getNumOutcomes` (smile_c.cpp:112-122). -/
def getNumOutcomes (E : Env R) (s : State R) (fname : String) (id : Int) : State R × Int :=
  let r := getNetwork E s fname
  match r.2.ptr with
  | none => (r.1, -1)
  | some nw => (r.1, ((nw.outcomes id).length : Int))

/-- The function `getStateId` (smile_c.cpp:125-144): the loop leaves `i` at the
first matching outcome, or at `numoutcomes` when none matches. -/
def getStateId (E : Env R) (s : State R) (fname : String) (id : Int) (state : String) :
    State R × Int :=
  let r := getNetwork E s fname
  match r.2.ptr with
  | none => (r.1, -1)
  | some nw => (r.1, (((nw.outcomes id).indexOf state : Nat) : Int))

/-- One pass of the loop at smile_c.cpp:219-229 on entry `e`. -/
def resolveId (nw : DSL_network) (e : node) : node :=
  if e.id ≤ 0 then { e with id := nw.FindNode e.name } else e

/-- The loop at smile_c.cpp:219-229: the evidence array after it, and `all_ok`. -/
def resolveEvidenceIds (nw : DSL_network) (evidence : Nat → node) (nevidence : Nat) :
    (Nat → node) × Bool :=
  (fun i => if i < nevidence then resolveId nw (evidence i) else evidence i,
   (List.range nevidence).all
     (fun i => !(decide ((evidence i).id ≤ 0) && decide (nw.FindNode (evidence i).name = DSL_OUT_OF_RANGE))))

/-- One pass of the loop at smile_c.cpp:234-248 on entry `e`: an empty label
gives `-1`, a label equal to outcome `j` (first match) gives `j`, and a label
equal to no outcome leaves `stateid` as it was. -/
def setStateId (nw : DSL_network) (e : node) : node :=
  if e.state = "" then { e with stateid := -1 }
  else
    let outcomes := nw.outcomes e.id
    let j := outcomes.indexOf e.state
    if j < outcomes.length then { e with stateid := (j : Int) } else e

/-- The evidence array after the loop at smile_c.cpp:234-251. -/
def setStateIds (nw : DSL_network) (evidence : Nat → node) (nevidence : Nat) : Nat → node :=
  fun i => if i < nevidence then setStateId nw (evidence i) else evidence i

/-- The first `tot_len = EVIDENCE_OFFSET + nevidence` bytes of `evidence_key`
as `getProb` passes them to `hash` (smile_c.cpp:198, 250, 261): the network
id, then one byte per slot; `evidence` is the array after the state-id loop,
or `none` for a null `evidence` argument. -/
def evidence_key (id : Int) (evidence : Option (Nat → node)) (nevidence : Nat) : List Nat :=
  ub1 id :: (List.range nevidence).map
    (fun i => match evidence with
      | some ev => ub1 (ev i).stateid
      | none => ub1 (-1))

/-- The `SetEvidence` calls of the loop at smile_c.cpp:253-257, in order. -/
def setEvidenceCalls (evidence : Nat → node) (nevidence : Nat) : List (Int × Int) :=
  (List.range nevidence).filterMap
    (fun i => if (evidence i).stateid ≥ 0 then some ((evidence i).id, (evidence i).stateid) else none)

/-- What a call of `getProb` leaves behind besides the statics: the return
status and the memory behind its pointer arguments. -/
structure ProbResult (R : Type) where
  status : Int
  target : node
  val : Nat → R
  evidence : Option (Nat → node)
  /-- Instrumentation: the bytes of the local `evidence_key` handed to `hash`
  at smile_c.cpp:267, `none` when the call returns before that line. -/
  key : Option (List Nat)

/-- The C expression `prob_hash[h][i]`. -/
def cell (prob_hash : Nat → R) (h i : Nat) : R := prob_hash (h * MAX_UB1 + i)

/-- The array after the loop `prob_hash[h][i] = val[i]` for `i < count`
(smile_c.cpp:299-301). -/
def storeRow (prob_hash : Nat → R) (h count : Nat) (val : Nat → R) : Nat → R :=
  fun a =>
    if h * MAX_UB1 ≤ a ∧ a < h * MAX_UB1 + count then val (a - h * MAX_UB1) else prob_hash a

/-- The sum `prob_tot` of smile_c.cpp:269-272. -/
def prob_tot [LinearOrderedField R] (prob_hash : Nat → R) (h : Nat) (count : Int) : R :=
  (List.range count.toNat).foldl (fun acc i => acc + cell prob_hash h i) 0

/-- The tail of `getProb` (smile_c.cpp:266-304): cache lookup, and on a miss
inference and store. `key` is the evidence key, `calls` the evidence set on
the network. -/
def lookupOrInfer [LinearOrderedField R] (E : Env R) (s : State R) (nw : DSL_network) (key : List Nat)
    (calls : List (Int × Int)) (target : node) (val : Nat → R)
    (evidence : Option (Nat → node)) : State R × ProbResult R :=
  let h := (E.hash key 0) &&& hashmask 16
  if prob_tot s.prob_hash h target.count > 1 / 2 then
    (s, ⟨SMILE_OK, target,
      fun i => if i < target.count.toNat then cell s.prob_hash h i else val i,
      evidence, some key⟩)
  else
    -- net->UpdateBeliefs()
    let s1 : State R := { s with updates := s.updates + 1 }
    match E.posterior nw calls target.id with
    | some mat =>
      if (mat.length : Int) ≠ target.count then
        (s1, ⟨SMILE_TARGET_SIZE_DIFF_FROM_COUNT, target, val, evidence, some key⟩)
      else
        let val1 : Nat → R := fun i => if i < mat.length then mat.getD i 0 else val i
        ({ s1 with prob_hash := storeRow s1.prob_hash h target.count.toNat val1 },
         ⟨SMILE_OK, target, val1, evidence, some key⟩)
    | none => (s1, ⟨SMILE_INVALID_VALUE, target, val, evidence, some key⟩)

/-- The function `getProb` (smile_c.cpp:173-305). The source is defined for
`nevidence ≤ MAX_NODES` and node handles the network knows. -/
def getProb [LinearOrderedField R] (E : Env R) (s : State R) (fname : String) (target : node) (val : Nat → R)
    (evidence : Option (Nat → node)) (nevidence : Nat) : State R × ProbResult R :=
  let r := getNetwork E s fname
  match r.2.ptr with
  | none => (r.1, ⟨SMILE_BAD_XDSL, target, val, evidence, none⟩)
  | some nw =>
    let target1 : node :=
      if target.id ≤ 0 then { target with id := nw.FindNode target.name } else target
    if target.id ≤ 0 ∧ target1.id = DSL_OUT_OF_RANGE then
      (r.1, ⟨SMILE_BAD_TARGET_NAME, target1, val, evidence, none⟩)
    else
      match evidence with
      | some ev =>
        let ev1 := resolveEvidenceIds nw ev nevidence
        if ev1.2 = false then
          (r.1, ⟨SMILE_BAD_EVIDENCE_NAME, target1, val, some ev1.1, none⟩)
        else
          let ev2 := setStateIds nw ev1.1 nevidence
          lookupOrInfer E r.1 nw (evidence_key r.2.id (some ev2) nevidence)
            (setEvidenceCalls ev2 nevidence) target1 val (some ev2)
      | none =>
        lookupOrInfer E r.1 nw (evidence_key r.2.id none nevidence) [] target1 val none

/-! ## `smile_funcs.c` -/

/-- The macro `INFO_EXPONENT`. -/
def INFO_EXPONENT [LinearOrderedField R] : R := 1 / 2

/-- The macro `THRESH_MODERATE` (0.3). -/
def THRESH_MODERATE [LinearOrderedField R] : R := 3 / 10

/-- The macro `THRESH_HIGH` (0.35). -/
def THRESH_HIGH [LinearOrderedField R] : R := 7 / 20

/-- The conversion of a `double` to `int`: truncation toward zero. -/
def toInt [LinearOrderedField R] [FloorRing R] (x : R) : Int := if 0 ≤ x then ⌊x⌋ else ⌈x⌉

/-- The C library function `int abs(int)`, the only `abs` a C translation unit has. -/
def abs_int (n : Int) : Int := if n < 0 then -n else n

/-- The statistic `S0` (for `v = nulvalue`) or `S1` (for `v = value`) of
smile_funcs.c:177-189: the product loop, the power, and the fold at
`v[0] > 0.5`. `pow` is the C library function. -/
def statS [LinearOrderedField R] (pow : R → R → R) (count : Int) (v : Nat → R) : R :=
  let S := (List.range count.toNat).foldl (fun S i => S * ((count : R) * v i)) 1
  let S := 1 / 2 * pow S INFO_EXPONENT
  if v 0 > 1 / 2 then 1 - S else S

/-- The variable `info` after smile_funcs.c:190, `info = abs(S0 - S1)`: the
argument is converted to `int`, and the `int` result back to `double`. -/
def information [LinearOrderedField R] [FloorRing R] (pow : R → R → R) (count : Int) (nulvalue value : Nat → R) : R :=
  let S0 := statS pow count nulvalue
  let S1 := statS pow count value
  ((abs_int (toInt (S0 - S1)) : Int) : R)

/-- The first classification block, smile_funcs.c:193-201, applied to `retval`. -/
def addInfoTier [LinearOrderedField R] (retval : Int) (info : R) : Int :=
  if info > THRESH_MODERATE then
    if info > THRESH_HIGH then retval + 12 else retval + 8
  else retval + 4

/-- The second classification block, smile_funcs.c:202-210, applied to `retval`. -/
def addProbTier [LinearOrderedField R] (retval : Int) (p : R) : Int :=
  if p > THRESH_MODERATE then
    if p > THRESH_HIGH then retval + 3 else retval + 2
  else retval + 1

/-- The value of `retval` after smile_funcs.c:192-210, from `info` and `value[tstate]`. -/
def classify [LinearOrderedField R] (info p : R) : Int :=
  addProbTier (addInfoTier 0 info) p

/-- The state label smile_funcs.c:133-153 gives the node called `name`: the
text of the first column of that name when it is not null, the empty string
otherwise; an error for a text of `LEN_STRING` bytes or more. A row is the
list of its columns, attribute name and value (`none`: SQL null). -/
def rowState (row : List (String × Option String)) (name : String) : Except String String :=
  match row.find? (fun c => c.1 = name) with
  | some (_, some v) =>
    if (cbytes v).length < LEN_STRING then .ok v
    else .error "SMILE: State of evidence node exceeds maximum length"
  | _ => .ok ""

/-- One pass of the loop at smile_funcs.c:111-155, for node `i`. -/
def evidenceStep (E : Env R) (fname : String) (row : List (String × Option String)) (i : Nat)
    (s : State R) (target : node) (evidence : Nat → node) :
    State R × Except String (node × (Nat → node)) :=
  let c := getNumOutcomes E s fname i
  let l := getNodeNameLen E c.1 fname i
  if l.2 = 0 then (l.1, .error "SMILE: Could not get node name length")
  else if l.2 > LEN_STRING then (l.1, .error "SMILE: Node name length exceeds maximum")
  else
    let n := copyNodeName E l.1 fname i
    match n.2 with
    | none => (n.1, .error "SMILE: Error getting node name")
    | some name =>
      if target.name = name ∧ c.2 ≠ (NUM_TARG_NODES : Int) then
        (n.1, .error "SMILE: Target node can only have two possible values")
      else
        let target1 : node := if target.name = name then { target with id := (i : Int) } else target
        match rowState row name with
        | .error m => (n.1, .error m)
        | .ok st =>
          (n.1, .ok (target1,
            Function.update evidence i { name := name, id := (i : Int), state := st, stateid := -1, count := c.2 }))

/-- The loop at smile_funcs.c:111-155: `k` passes starting at node `i`. -/
def evidenceLoop (E : Env R) (fname : String) (row : List (String × Option String)) :
    Nat → Nat → State R → node → (Nat → node) → State R × Except String (node × (Nat → node))
  | 0, _, s, target, evidence => (s, .ok (target, evidence))
  | k + 1, i, s, target, evidence =>
    match evidenceStep E fname row i s target evidence with
    | (s1, .error m) => (s1, .error m)
    | (s1, .ok (target1, evidence1)) => evidenceLoop E fname row k (i + 1) s1 target1 evidence1

/-- The uninitialised automatic variables of `smile_infer`, as found on entry. -/
structure Locals (R : Type) where
  target : node
  evidence : Nat → node
  value : Nat → R
  nulvalue : Nat → R

/-- The head of `smile_infer`, smile_funcs.c:86-155: the target, the evidence
array and `numnodes` it hands to `getProb`, or the error it reports. -/
def smile_infer_evidence (E : Env R) (s : State R) (xdsl_file target_name : String)
    (evidence_tuple : List (String × Option String)) (loc : Locals R) :
    State R × Except String (node × (Nat → node) × Nat) :=
  if ¬ (cbytes target_name).length < LEN_STRING then
    (s, .error "SMILE: Target node name length exceeds maximum")
  else
    let target : node := { loc.target with name := target_name, count := 2, id := -1 }
    let c := checkFileName E s xdsl_file
    if c.2 ≠ SMILE_OK then (c.1, .error "SMILE: Can't open XDSL file")
    else
      let n := getNumNodes E c.1 xdsl_file
      match evidenceLoop E xdsl_file evidence_tuple n.2.toNat 0 n.1 target loc.evidence with
      | (s1, .error m) => (s1, .error m)
      | (s1, .ok (target1, evidence1)) => (s1, .ok (target1, evidence1, n.2.toNat))

/-- The function `smile_infer` (smile_funcs.c:69-218): the statics after the
call, and the returned code or the error reported through `ereport`. -/
def smile_infer [LinearOrderedField R] [FloorRing R] (pow : R → R → R) (E : Env R) (s : State R)
    (xdsl_file target_name target_state : String)
    (evidence_tuple : List (String × Option String)) (loc : Locals R) :
    State R × Except String Int :=
  match smile_infer_evidence E s xdsl_file target_name evidence_tuple loc with
  | (s1, .error m) => (s1, .error m)
  | (s1, .ok (target, evidence, numnodes)) =>
    let r1 := getProb E s1 xdsl_file target loc.value (some evidence) numnodes
    if r1.2.status ≠ SMILE_OK then (r1.1, .error "SMILE: Error code")
    else
      let t := getStateId E r1.1 xdsl_file r1.2.target.id target_state
      let r2 := getProb E t.1 xdsl_file r1.2.target loc.nulvalue none numnodes
      if r2.2.status ≠ SMILE_OK then (r2.1, .error "SMILE: Error code")
      else
        let info := information pow r2.2.target.count r2.2.val r1.2.val
        (r2.1, .ok (classify info (r1.2.val t.2.toNat)))

/-- The evidence key of the `getProb` call at smile_funcs.c:158, when
`smile_infer` gets that far and the call builds one. -/
def smile_infer_key [LinearOrderedField R] (E : Env R) (s : State R)
    (xdsl_file target_name : String) (evidence_tuple : List (String × Option String))
    (loc : Locals R) : Option (List Nat) :=
  match smile_infer_evidence E s xdsl_file target_name evidence_tuple loc with
  | (_, .error _) => none
  | (s1, .ok (target, evidence, numnodes)) =>
    (getProb E s1 xdsl_file target loc.value (some evidence) numnodes).2.key

/-- The array whose first entries are those of `l` (zero beyond). -/
def arrayOf [Zero R] (l : List R) : Nat → R := fun i => l.getD i 0

/-! ## Concrete data for the examples -/

/-- A 32-bit polynomial hash, standing in for the Jenkins hash in the concrete examples. -/
def exHash (k : List Nat) (initval : Nat) : Nat :=
  k.foldl (fun a b => (a * 31 + b) % 4294967296) initval

/-- The network of the scenario: `Rain` and `Sprinkler`, two outcomes each. -/
def exRain : DSL_network :=
  ⟨[("Rain", ["Yes", "No"]), ("Sprinkler", ["On", "Off"])]⟩

/-- The two-letter label number `i`: `aa`, `ab`, ..., `az`, `ba`, ... -/
def exLabel (i : Nat) : String :=
  String.mk [Char.ofNat (97 + i / 26), Char.ofNat (97 + i % 26)]

/-- A number for each two-letter label, increasing with the label. -/
def exCode (s : String) : Nat :=
  match s.data with
  | [a, b] => a.toNat * 1000 + b.toNat
  | _ => 0

/-- Whether each number of the list is below the next. -/
def exIncreasing : List Nat → Bool
  | [] => true
  | [_] => true
  | a :: b :: l => decide (a < b) && exIncreasing (b :: l)

/-- A network with a variable `Level` of 256 outcomes `aa`, `ab`, ..., `jv`. -/
def exWide : DSL_network :=
  ⟨[("Rain", ["Yes", "No"]), ("Level", (List.range 256).map exLabel)]⟩

/-- An environment with three network files; every other file fails to load.
The posterior of any target is `[0.3, 0.7]` without evidence and `[0.6, 0.4]`
with some. -/
def exEnv : Env ℚ where
  hash := exHash
  ReadFile := fun f =>
    if f = "rain.xdsl" ∨ f = "rain2.xdsl" then some exRain
    else if f = "wide.xdsl" then some exWide
    else none
  posterior := fun _ calls _ => if calls = [] then some [3 / 10, 7 / 10] else some [6 / 10, 4 / 10]

/-- The target of the scenario as `smile_infer` sets it up: `Rain`, two outcomes, id unset. -/
def exTarget : node := ⟨"Rain", -1, "", -1, 2⟩

/-- The registry after loading `rain.xdsl` (id 0), then 255 failed attempts to
load `missing.xdsl` (ids 1 to 255), then loading `rain2.xdsl` (id 256). -/
def exState256 : State ℚ :=
  (getNetwork exEnv
    (Nat.iterate (fun s => (getNetwork exEnv s "missing.xdsl").1) 255
      (getNetwork exEnv (State.init ℚ) "rain.xdsl").1)
    "rain2.xdsl").1

/-- The registry after loading `rain.xdsl` (id 0) and `wide.xdsl` (id 1). -/
def exState2 : State ℚ :=
  (getNetwork exEnv (getNetwork exEnv (State.init ℚ) "rain.xdsl").1 "wide.xdsl").1

/-- An evidence array naming a variable, `Ghost`, that no network has. -/
def exGhost : Nat → node := fun _ => ⟨"Ghost", -1, "On", -1, 2⟩

/-- The evidence array `smile_infer` builds for `exRain` from a row whose
column `Sprinkler` holds `Maybe`, which is not an outcome of `Sprinkler`. -/
def exMaybe : Nat → node := fun i =>
  if i = 0 then ⟨"Rain", 0, "", -1, 2⟩ else ⟨"Sprinkler", 1, "Maybe", -1, 2⟩

/-- Evidence for `exWide` with `Level` unobserved. -/
def exLevelNone : Nat → node := fun i =>
  if i = 0 then ⟨"Rain", 0, "", -1, 2⟩ else ⟨"Level", 1, "", -1, 256⟩

/-- Evidence for `exWide` with `Level` observed at its last outcome, of index 255. -/
def exLevelLast : Nat → node := fun i =>
  if i = 0 then ⟨"Rain", 0, "", -1, 2⟩
  else ⟨"Level", 1, "jv", -1, 256⟩

/-- Evidence for `exRain` with `Sprinkler` unobserved. -/
def exSprinklerNone : Nat → node := fun i =>
  if i = 0 then ⟨"Rain", 0, "", -1, 2⟩ else ⟨"Sprinkler", 1, "", -1, 2⟩

/-- Evidence for `exRain` with `Sprinkler` observed as `On`. -/
def exSprinklerOn : Nat → node := fun i =>
  if i = 0 then ⟨"Rain", 0, "", -1, 2⟩ else ⟨"Sprinkler", 1, "On", -1, 2⟩

/-- A row observing `Sprinkler = On`, with a null column `Rain`. -/
def exRowA : List (String × Option String) := [("Sprinkler", some "On"), ("Rain", none)]

/-- Some contents for the automatic variables of `smile_infer`. -/
def exLocals : Locals ℚ := ⟨default, fun _ => default, fun _ => 0, fun _ => 0⟩

/-- The registry after loading `rain.xdsl` (id 0). -/
def exState1 : State ℚ := (getNetwork exEnv (State.init ℚ) "rain.xdsl").1

/-- A second target of `exRain`, as `smile_infer` sets it up: `Sprinkler`, id unset. -/
def exTarget2 : node := ⟨"Sprinkler", -1, "", -1, 2⟩

/-- A network whose variable `Rain` has 257 outcomes `aa`, `ab`, ..., `jx`. -/
def exBig : DSL_network :=
  ⟨[("Rain", (List.range 257).map exLabel), ("Sprinkler", ["On", "Off"])]⟩

/-- An environment with the network file `big.xdsl`. The posterior of `Rain`
(handle 0) is certain of its last outcome, the posterior of `Sprinkler` is
`[0, 1]`. -/
def exEnvBig : Env ℚ where
  hash := exHash
  ReadFile := fun f => if f = "big.xdsl" then some exBig else none
  posterior := fun _ _ t => if t = 0 then some (List.replicate 256 0 ++ [1]) else some [0, 1]

/-- The registry after loading `big.xdsl` (id 0). -/
def exStateBig : State ℚ := (getNetwork exEnvBig (State.init ℚ) "big.xdsl").1

/-- The target `Rain` of `exBig`, with its 257 outcomes as `count`. -/
def exTargetBig : node := ⟨"Rain", -1, "", -1, 257⟩

/-- Evidence for `exBig` with `Sprinkler` observed as `On`. -/
def exBigOn : Nat → node := fun i =>
  if i = 0 then ⟨"Rain", 0, "", -1, 257⟩ else ⟨"Sprinkler", 1, "On", -1, 2⟩

/-- Evidence for `exBig` with `Sprinkler` observed as `Off`. -/
def exBigOff : Nat → node := fun i =>
  if i = 0 then ⟨"Rain", 0, "", -1, 257⟩ else ⟨"Sprinkler", 1, "Off", -1, 2⟩

/-- The posterior of `Rain` in `exEnvBig` as `getProb` leaves it in `val`. -/
def exBigVal : Nat → ℚ := fun i =>
  if i < (List.replicate 256 (0 : ℚ) ++ [1]).length
  then (List.replicate 256 (0 : ℚ) ++ [1]).getD i 0 else 0

/-! ## The confidence scorer -/

section Scorer

/-- For a two-outcome vector the product loop of `statS` gives `(2 v[0]) (2 v[1])`. -/
theorem statS_two [LinearOrderedField R] (pow : R → R → R) (v : Nat → R) :
    statS pow 2 v
      = if v 0 > 1 / 2 then 1 - 1 / 2 * pow (2 * v 0 * (2 * v 1)) (1 / 2)
        else 1 / 2 * pow (2 * v 0 * (2 * v 1)) (1 / 2) := by
  simp [statS, INFO_EXPONENT, List.range_succ]

/-- The integer absolute value of a truncation is below the real one. -/
theorem abs_int_toInt_le [LinearOrderedField R] [FloorRing R] (x : R) : ((abs_int (toInt x) : Int) : R) ≤ |x| := by
  unfold abs_int toInt
  by_cases hx : 0 ≤ x
  · have h0 : (0 : Int) ≤ ⌊x⌋ := Int.floor_nonneg.mpr hx
    simp only [hx, if_true, not_lt.mpr h0, if_false]
    rw [abs_of_nonneg hx]
    exact Int.floor_le x
  · have hx1 : x < 0 := not_le.mp hx
    have h0 : ⌈x⌉ ≤ (0 : Int) := Int.ceil_le.mpr (by simpa using hx1.le)
    simp only [hx, if_false]
    rw [abs_of_neg hx1]
    split_ifs with h
    · push_cast
      have := Int.le_ceil x
      linarith
    · have h1 : ⌈x⌉ = 0 := le_antisymm h0 (not_lt.mp h)
      rw [h1]
      simpa using hx1.le

theorem abs_int_nonneg (n : Int) : 0 ≤ abs_int n := by
  unfold abs_int
  split_ifs <;> omega

/-- A truncation of something strictly between -1 and 1 is 0. -/
theorem toInt_eq_zero [LinearOrderedField R] [FloorRing R] (x : R) (h1 : -1 < x) (h2 : x < 1) : toInt x = 0 := by
  unfold toInt
  split_ifs with hx
  · rw [Int.floor_eq_iff]
    constructor
    · simpa using hx
    · simpa using h2
  · rw [Int.ceil_eq_iff]
    constructor
    · simpa using h1
    · simpa using (not_le.mp hx).le

/-- For a valid two-outcome vector the statistic `S` lies in `[0, 1]`. -/
theorem statS_mem_unit (v : Nat → ℝ) (h0 : 0 ≤ v 0) (h1 : 0 ≤ v 1) (hs : v 0 + v 1 = 1) :
    0 ≤ statS (fun x y : ℝ => x ^ y) 2 v ∧ statS (fun x y : ℝ => x ^ y) 2 v ≤ 1 := by
  have hx0 : 0 ≤ 2 * v 0 * (2 * v 1) := by positivity
  have hx1 : 2 * v 0 * (2 * v 1) ≤ 1 := by nlinarith [sq_nonneg (v 0 - v 1)]
  have hp0 : 0 ≤ (2 * v 0 * (2 * v 1)) ^ (1 / 2 : ℝ) := Real.rpow_nonneg hx0 _
  have hp1 : (2 * v 0 * (2 * v 1)) ^ (1 / 2 : ℝ) ≤ 1 := Real.rpow_le_one hx0 hx1 (by norm_num)
  rw [statS_two]
  split_ifs <;> constructor <;> linarith

/-- C1, the code at the scenario of the specification: with `nulvalue = [0.3, 0.7]`
and `value = [0.6, 0.4]` the two statistics are `S0 = 0.5 * 0.84^0.5` and
`S1 = 1 - 0.5 * 0.96^0.5`, they differ, and yet `info` is `0`: the integer
`abs` truncates the difference before taking the absolute value. -/
theorem information_scenario_truncated :
    statS (fun x y : ℝ => x ^ y) 2 (arrayOf [3 / 10, 7 / 10]) = 1 / 2 * (21 / 25 : ℝ) ^ (1 / 2 : ℝ) ∧
    statS (fun x y : ℝ => x ^ y) 2 (arrayOf [6 / 10, 4 / 10]) = 1 - 1 / 2 * (24 / 25 : ℝ) ^ (1 / 2 : ℝ) ∧
    information (fun x y : ℝ => x ^ y) 2 (arrayOf [3 / 10, 7 / 10]) (arrayOf [6 / 10, 4 / 10]) = 0 ∧
    information (fun x y : ℝ => x ^ y) 2 (arrayOf [3 / 10, 7 / 10]) (arrayOf [6 / 10, 4 / 10])
      ≠ |statS (fun x y : ℝ => x ^ y) 2 (arrayOf [3 / 10, 7 / 10])
          - statS (fun x y : ℝ => x ^ y) 2 (arrayOf [6 / 10, 4 / 10])| := by
  have e0 : statS (fun x y : ℝ => x ^ y) 2 (arrayOf [3 / 10, 7 / 10])
      = 1 / 2 * (21 / 25 : ℝ) ^ (1 / 2 : ℝ) := by
    rw [statS_two]
    norm_num [arrayOf]
  have e1 : statS (fun x y : ℝ => x ^ y) 2 (arrayOf [6 / 10, 4 / 10])
      = 1 - 1 / 2 * (24 / 25 : ℝ) ^ (1 / 2 : ℝ) := by
    rw [statS_two]
    norm_num [arrayOf]
  have a0 : 0 < (21 / 25 : ℝ) ^ (1 / 2 : ℝ) := Real.rpow_pos_of_pos (by norm_num) _
  have a1 : (21 / 25 : ℝ) ^ (1 / 2 : ℝ) < 1 :=
    Real.rpow_lt_one (by norm_num) (by norm_num) (by norm_num)
  have b0 : 0 < (24 / 25 : ℝ) ^ (1 / 2 : ℝ) := Real.rpow_pos_of_pos (by norm_num) _
  have b1 : (24 / 25 : ℝ) ^ (1 / 2 : ℝ) < 1 :=
    Real.rpow_lt_one (by norm_num) (by norm_num) (by norm_num)
  have hi : information (fun x y : ℝ => x ^ y) 2 (arrayOf [3 / 10, 7 / 10])
      (arrayOf [6 / 10, 4 / 10]) = 0 := by
    unfold information
    simp only [e0, e1]
    rw [toInt_eq_zero _ (by linarith) (by linarith)]
    simp [abs_int]
  refine ⟨e0, e1, hi, ?_⟩
  rw [hi, e0, e1]
  intro h
  have h2 := abs_eq_zero.mp h.symm
  linarith

/-- C3: for valid two-outcome posterior vectors (entries in `[0, 1]`, summing
to `1`) the `info` of `smile_infer` lies in `[0, 1]`. -/
theorem information_bounds (nulvalue value : Nat → ℝ)
    (hn0 : 0 ≤ nulvalue 0 ∧ nulvalue 0 ≤ 1) (hn1 : 0 ≤ nulvalue 1 ∧ nulvalue 1 ≤ 1)
    (hn : nulvalue 0 + nulvalue 1 = 1)
    (hv0 : 0 ≤ value 0 ∧ value 0 ≤ 1) (hv1 : 0 ≤ value 1 ∧ value 1 ≤ 1)
    (hv : value 0 + value 1 = 1) :
    0 ≤ information (fun x y : ℝ => x ^ y) 2 nulvalue value ∧
    information (fun x y : ℝ => x ^ y) 2 nulvalue value ≤ 1 := by
  obtain ⟨a0, a1⟩ := statS_mem_unit nulvalue hn0.1 hn1.1 hn
  obtain ⟨b0, b1⟩ := statS_mem_unit value hv0.1 hv1.1 hv
  unfold information
  constructor
  · exact Int.cast_nonneg.mpr (abs_int_nonneg _)
  · refine le_trans (abs_int_toInt_le _) ?_
    rw [abs_le]
    constructor <;> linarith

/-- C3 at `nulvalue = [1/2, 1/2]`, `value = [1, 0]`. -/
theorem information_bounds_witness :
    0 ≤ information (fun x y : ℝ => x ^ y) 2 (arrayOf [1 / 2, 1 / 2]) (arrayOf [1, 0]) ∧
    information (fun x y : ℝ => x ^ y) 2 (arrayOf [1 / 2, 1 / 2]) (arrayOf [1, 0]) ≤ 1 :=
  information_bounds (arrayOf [1 / 2, 1 / 2]) (arrayOf [1, 0])
    (by norm_num [arrayOf]) (by norm_num [arrayOf]) (by norm_num [arrayOf])
    (by norm_num [arrayOf]) (by norm_num [arrayOf]) (by norm_num [arrayOf])

/-- C10: the code returned by `smile_infer` is the sum of an information tier
(4, 8, 12) and a queried-state tier (1, 2, 3); each tier is non-decreasing in
its argument and strictly increases when the argument crosses
`THRESH_MODERATE`, and again when it crosses `THRESH_HIGH`. -/
theorem classify_monotone [LinearOrderedField R] (info info' p p' : R) :
    classify info p = addInfoTier 0 info + addProbTier 0 p ∧
    addInfoTier 0 info
      = (if info ≤ THRESH_MODERATE then 4 else if info ≤ THRESH_HIGH then 8 else 12) ∧
    addProbTier 0 p
      = (if p ≤ THRESH_MODERATE then 1 else if p ≤ THRESH_HIGH then 2 else 3) ∧
    (info ≤ info' → addInfoTier 0 info ≤ addInfoTier 0 info') ∧
    (info ≤ THRESH_MODERATE → THRESH_MODERATE < info' →
      addInfoTier 0 info < addInfoTier 0 info') ∧
    (info ≤ THRESH_HIGH → THRESH_HIGH < info' → addInfoTier 0 info < addInfoTier 0 info') ∧
    (p ≤ p' → addProbTier 0 p ≤ addProbTier 0 p') ∧
    (p ≤ THRESH_MODERATE → THRESH_MODERATE < p' → addProbTier 0 p < addProbTier 0 p') ∧
    (p ≤ THRESH_HIGH → THRESH_HIGH < p' → addProbTier 0 p < addProbTier 0 p') := by
  have hT : (THRESH_MODERATE : R) < THRESH_HIGH := by
    unfold THRESH_MODERATE THRESH_HIGH
    norm_num
  refine ⟨?_, ?_, ?_, ?_, ?_, ?_, ?_, ?_, ?_⟩
  · unfold classify addProbTier addInfoTier
    split_ifs <;> omega
  · unfold addInfoTier
    split_ifs <;> first | rfl | (exfalso; linarith)
  · unfold addProbTier
    split_ifs <;> first | rfl | (exfalso; linarith)
  · intro h
    unfold addInfoTier
    split_ifs <;> first | omega | (exfalso; linarith)
  · intro h1 h2
    unfold addInfoTier
    split_ifs <;> first | omega | (exfalso; linarith)
  · intro h1 h2
    unfold addInfoTier
    split_ifs <;> first | omega | (exfalso; linarith)
  · intro h
    unfold addProbTier
    split_ifs <;> first | omega | (exfalso; linarith)
  · intro h1 h2
    unfold addProbTier
    split_ifs <;> first | omega | (exfalso; linarith)
  · intro h1 h2
    unfold addProbTier
    split_ifs <;> first | omega | (exfalso; linarith)

/-- C10 at `info = p = 1/10` and `info' = p' = 2/5`, which lie on either side
of both thresholds. -/
theorem classify_monotone_witness :
    addInfoTier 0 (1 / 10 : ℚ) ≤ addInfoTier 0 (2 / 5 : ℚ) ∧
    addInfoTier 0 (1 / 10 : ℚ) < addInfoTier 0 (2 / 5 : ℚ) ∧
    addInfoTier 0 (1 / 10 : ℚ) < addInfoTier 0 (2 / 5 : ℚ) ∧
    addProbTier 0 (1 / 10 : ℚ) ≤ addProbTier 0 (2 / 5 : ℚ) ∧
    addProbTier 0 (1 / 10 : ℚ) < addProbTier 0 (2 / 5 : ℚ) ∧
    addProbTier 0 (1 / 10 : ℚ) < addProbTier 0 (2 / 5 : ℚ) :=
  have h := classify_monotone (1 / 10 : ℚ) (2 / 5) (1 / 10) (2 / 5)
  ⟨h.2.2.2.1 (by norm_num),
   h.2.2.2.2.1 (by norm_num [THRESH_MODERATE]) (by norm_num [THRESH_MODERATE]),
   h.2.2.2.2.2.1 (by norm_num [THRESH_HIGH]) (by norm_num [THRESH_HIGH]),
   h.2.2.2.2.2.2.1 (by norm_num),
   h.2.2.2.2.2.2.2.1 (by norm_num [THRESH_MODERATE]) (by norm_num [THRESH_MODERATE]),
   h.2.2.2.2.2.2.2.2 (by norm_num [THRESH_HIGH]) (by norm_num [THRESH_HIGH])⟩

end Scorer

/-! ## The network registry -/

section Registry

/-- Once a slot holds a network, `getNetwork` returns it and changes nothing. -/
theorem getNetwork_loaded (E : Env R) (s : State R) (fname : String)
    (h : (s.nets ((E.hash (cbytes fname) 0) &&& hashmask 10)).ptr ≠ none) :
    getNetwork E s fname = (s, s.nets ((E.hash (cbytes fname) 0) &&& hashmask 10)) := by
  unfold getNetwork
  simp [h]

/-- After a call that returned a network, the slot of the file holds what was returned. -/
theorem getNetwork_slot (E : Env R) (s : State R) (fname : String) :
    (getNetwork E s fname).1.nets ((E.hash (cbytes fname) 0) &&& hashmask 10)
      = (getNetwork E s fname).2 := by
  unfold getNetwork
  by_cases h0 : (s.nets ((E.hash (cbytes fname) 0) &&& hashmask 10)).ptr = none
  · simp [h0]
  · simp [h0]

/-- A call of `getNetwork` leaves the belief cache and the inference counter alone. -/
theorem getNetwork_prob_hash (E : Env R) (s : State R) (fname : String) :
    (getNetwork E s fname).1.prob_hash = s.prob_hash ∧
    (getNetwork E s fname).1.updates = s.updates := by
  simp only [getNetwork]
  split_ifs <;> simp

/-- In any state with the registry of the state after a successful call, the
same file resolves to the same network without a change of state. -/
theorem getNetwork_again (E : Env R) (s s' : State R) (fname : String)
    (h : (getNetwork E s fname).2.ptr ≠ none)
    (hs : s'.nets = (getNetwork E s fname).1.nets) :
    getNetwork E s' fname = (s', (getNetwork E s fname).2) := by
  have h1 := getNetwork_slot E s fname
  rw [← hs] at h1
  have h2 : (s'.nets ((E.hash (cbytes fname) 0) &&& hashmask 10)).ptr ≠ none := by
    rw [h1]
    exact h
  rw [getNetwork_loaded E s' fname h2, h1]

/-- C7 as stated fails when the load fails: on the initial registry, two calls
in a row for a file that cannot be read both return a null pointer, but with
ids 0 and 1; the second call reads the file again and advances `curr_id`. -/
theorem getNetwork_failed_load_repeats :
    (getNetwork exEnv (State.init ℚ) "missing.xdsl").2 = ⟨none, 0⟩ ∧
    (getNetwork exEnv (getNetwork exEnv (State.init ℚ) "missing.xdsl").1 "missing.xdsl").2
      = ⟨none, 1⟩ ∧
    (getNetwork exEnv (State.init ℚ) "missing.xdsl").1.reads = 1 ∧
    (getNetwork exEnv (getNetwork exEnv (State.init ℚ) "missing.xdsl").1 "missing.xdsl").1.reads
      = 2 ∧
    (getNetwork exEnv (State.init ℚ) "missing.xdsl").1.curr_id = 1 ∧
    (getNetwork exEnv (getNetwork exEnv (State.init ℚ) "missing.xdsl").1 "missing.xdsl").1.curr_id
      = 2 := by
  decide

/-- C7, amended: when `getNetwork` returns a network (a non-null pointer), an
immediate second call for the same file returns the same pointer and the same
id, and leaves every static as it was: no `ReadFile`, no new id. -/
theorem getNetwork_idempotent (E : Env R) (s : State R) (fname : String)
    (h : (getNetwork E s fname).2.ptr ≠ none) :
    (getNetwork E (getNetwork E s fname).1 fname).2 = (getNetwork E s fname).2 ∧
    (getNetwork E (getNetwork E s fname).1 fname).1 = (getNetwork E s fname).1 ∧
    (getNetwork E (getNetwork E s fname).1 fname).1.reads = (getNetwork E s fname).1.reads ∧
    (getNetwork E (getNetwork E s fname).1 fname).1.curr_id
      = (getNetwork E s fname).1.curr_id := by
  have e := getNetwork_again E s (getNetwork E s fname).1 fname h rfl
  rw [e]
  exact ⟨rfl, rfl, rfl, rfl⟩

/-- C7, amended, on the initial registry and a file that loads: the first call
reads the file once and assigns id 0, the second returns the same network and
id with one read in total. -/
theorem getNetwork_idempotent_witness :
    (getNetwork exEnv (getNetwork exEnv (State.init ℚ) "rain.xdsl").1 "rain.xdsl").2
      = (getNetwork exEnv (State.init ℚ) "rain.xdsl").2 ∧
    (getNetwork exEnv (getNetwork exEnv (State.init ℚ) "rain.xdsl").1 "rain.xdsl").1
      = (getNetwork exEnv (State.init ℚ) "rain.xdsl").1 ∧
    (getNetwork exEnv (getNetwork exEnv (State.init ℚ) "rain.xdsl").1 "rain.xdsl").1.reads
      = (getNetwork exEnv (State.init ℚ) "rain.xdsl").1.reads ∧
    (getNetwork exEnv (getNetwork exEnv (State.init ℚ) "rain.xdsl").1 "rain.xdsl").1.curr_id
      = (getNetwork exEnv (State.init ℚ) "rain.xdsl").1.curr_id :=
  getNetwork_idempotent exEnv (State.init ℚ) "rain.xdsl" (by decide)

end Registry

/-! ## The evidence key -/

section Key

/-- The tail of `getProb` always reports the key it was given. -/
theorem lookupOrInfer_key [LinearOrderedField R] (E : Env R) (s : State R) (nw : DSL_network)
    (key : List Nat) (calls : List (Int × Int)) (target : node) (val : Nat → R)
    (evidence : Option (Nat → node)) :
    (lookupOrInfer E s nw key calls target val evidence).2.key = some key := by
  simp only [lookupOrInfer]
  split_ifs
  · rfl
  · split
    · split_ifs <;> rfl
    · rfl

/-- A call of `getProb` for a file whose network is not loaded. -/
theorem getProb_null [LinearOrderedField R] (E : Env R) (s : State R) (fname : String)
    (target : node) (val : Nat → R) (evidence : Option (Nat → node)) (nevidence : Nat)
    (hptr : (getNetwork E s fname).2.ptr = none) :
    getProb E s fname target val evidence nevidence
      = ((getNetwork E s fname).1, ⟨SMILE_BAD_XDSL, target, val, evidence, none⟩) := by
  simp only [getProb, hptr]

/-- The body of `getProb` on a loaded network. -/
theorem getProb_loaded [LinearOrderedField R] (E : Env R) (s : State R) (fname : String)
    (target : node) (val : Nat → R) (evidence : Option (Nat → node)) (nevidence : Nat)
    (nw : DSL_network) (hptr : (getNetwork E s fname).2.ptr = some nw) :
    getProb E s fname target val evidence nevidence
      = if target.id ≤ 0 ∧ (resolveId nw target).id = DSL_OUT_OF_RANGE then
          ((getNetwork E s fname).1,
            ⟨SMILE_BAD_TARGET_NAME, resolveId nw target, val, evidence, none⟩)
        else
          match evidence with
          | some ev =>
            if (resolveEvidenceIds nw ev nevidence).2 = false then
              ((getNetwork E s fname).1,
                ⟨SMILE_BAD_EVIDENCE_NAME, resolveId nw target, val,
                  some (resolveEvidenceIds nw ev nevidence).1, none⟩)
            else
              lookupOrInfer E (getNetwork E s fname).1 nw
                (evidence_key (getNetwork E s fname).2.id
                  (some (setStateIds nw (resolveEvidenceIds nw ev nevidence).1 nevidence)) nevidence)
                (setEvidenceCalls (setStateIds nw (resolveEvidenceIds nw ev nevidence).1 nevidence)
                  nevidence)
                (resolveId nw target) val
                (some (setStateIds nw (resolveEvidenceIds nw ev nevidence).1 nevidence))
          | none =>
            lookupOrInfer E (getNetwork E s fname).1 nw
              (evidence_key (getNetwork E s fname).2.id none nevidence) []
              (resolveId nw target) val none := by
  simp only [getProb, hptr, resolveId]

/-- Byte 0 of a key built by `getProb` is the network id as a byte. -/
theorem getProb_key_head [LinearOrderedField R] (E : Env R) (s : State R) (fname : String)
    (target : node) (val : Nat → R) (evidence : Option (Nat → node)) (nevidence : Nat)
    (k : List Nat) (hk : (getProb E s fname target val evidence nevidence).2.key = some k) :
    k.head? = some (ub1 (getNetwork E s fname).2.id) := by
  rcases hptr : (getNetwork E s fname).2.ptr with _ | nw
  · rw [getProb_null E s fname target val evidence nevidence hptr] at hk
    simp at hk
  · rw [getProb_loaded E s fname target val evidence nevidence nw hptr] at hk
    by_cases h1 : target.id ≤ 0 ∧ (resolveId nw target).id = DSL_OUT_OF_RANGE
    · rw [if_pos h1] at hk
      simp at hk
    · rw [if_neg h1] at hk
      cases evidence with
      | none =>
        simp only [lookupOrInfer_key, Option.some.injEq] at hk
        rw [← hk]
        rfl
      | some ev =>
        simp only at hk
        by_cases h2 : (resolveEvidenceIds nw ev nevidence).2 = false
        · rw [if_pos h2] at hk
          simp at hk
        · rw [if_neg h2] at hk
          simp only [lookupOrInfer_key, Option.some.injEq] at hk
          rw [← hk]
          rfl

/-- The key `getProb` builds for a null `evidence` argument. -/
theorem getProb_key_none [LinearOrderedField R] (E : Env R) (s : State R) (fname : String)
    (target : node) (val : Nat → R) (nevidence : Nat) (nw : DSL_network)
    (hptr : (getNetwork E s fname).2.ptr = some nw)
    (ht : ¬ (target.id ≤ 0 ∧ (resolveId nw target).id = DSL_OUT_OF_RANGE)) :
    (getProb E s fname target val none nevidence).2.key
      = some (evidence_key (getNetwork E s fname).2.id none nevidence) := by
  rw [getProb_loaded E s fname target val none nevidence nw hptr, if_neg ht]
  simp only [lookupOrInfer_key]

/-- The key `getProb` builds for an evidence array all of whose names resolve. -/
theorem getProb_key_some [LinearOrderedField R] (E : Env R) (s : State R) (fname : String)
    (target : node) (val : Nat → R) (ev : Nat → node) (nevidence : Nat) (nw : DSL_network)
    (hptr : (getNetwork E s fname).2.ptr = some nw)
    (ht : ¬ (target.id ≤ 0 ∧ (resolveId nw target).id = DSL_OUT_OF_RANGE))
    (hev : (resolveEvidenceIds nw ev nevidence).2 = true) :
    (getProb E s fname target val (some ev) nevidence).2.key
      = some (evidence_key (getNetwork E s fname).2.id
          (some (setStateIds nw (resolveEvidenceIds nw ev nevidence).1 nevidence)) nevidence) := by
  rw [getProb_loaded E s fname target val (some ev) nevidence nw hptr, if_neg ht]
  simp only [hev, Bool.true_eq_false, if_false, lookupOrInfer_key]

set_option maxRecDepth 100000 in
/-- C4 as stated fails: in the registry `exState256` the files `rain.xdsl` and
`rain2.xdsl` have the different ids 0 and 256, and the keys `getProb` builds
for them have the same byte 0 (here the keys are equal altogether). -/
theorem evidence_key_byte0_wraps :
    (getNetwork exEnv exState256 "rain.xdsl").2.id = 0 ∧
    (getNetwork exEnv exState256 "rain2.xdsl").2.id = 256 ∧
    (getProb exEnv exState256 "rain.xdsl" exTarget (fun _ => 0) none 2).2.key
      = some [0, 255, 255] ∧
    (getProb exEnv exState256 "rain2.xdsl" exTarget (fun _ => 0) none 2).2.key
      = some [0, 255, 255] := by
  refine ⟨by decide, by decide, ?_, ?_⟩
  · rw [getProb_key_none exEnv exState256 "rain.xdsl" exTarget _ 2 exRain (by decide) (by decide)]
    decide
  · rw [getProb_key_none exEnv exState256 "rain2.xdsl" exTarget _ 2 exRain (by decide) (by decide)]
    decide

/-- C4, amended: when the ids of the two networks differ modulo 256 (as any
two different ids below 256 do), the keys `getProb` builds for them differ in
byte 0, whatever the targets and the evidence. -/
theorem evidence_key_byte0_separates [LinearOrderedField R] (E : Env R) (s s' : State R)
    (fname fname' : String) (target target' : node) (val val' : Nat → R)
    (evidence evidence' : Option (Nat → node)) (nevidence nevidence' : Nat) (k k' : List Nat)
    (hk : (getProb E s fname target val evidence nevidence).2.key = some k)
    (hk' : (getProb E s' fname' target' val' evidence' nevidence').2.key = some k')
    (hid : (getNetwork E s fname).2.id % 256 ≠ (getNetwork E s' fname').2.id % 256) :
    k.head? ≠ k'.head? := by
  rw [getProb_key_head E s fname target val evidence nevidence k hk,
    getProb_key_head E s' fname' target' val' evidence' nevidence' k' hk']
  intro h
  apply hid
  have h1 : ub1 (getNetwork E s fname).2.id = ub1 (getNetwork E s' fname').2.id :=
    Option.some.inj h
  unfold ub1 at h1
  have e1 : (0 : Int) ≤ (getNetwork E s fname).2.id % 256 := Int.emod_nonneg _ (by norm_num)
  have e2 : (0 : Int) ≤ (getNetwork E s' fname').2.id % 256 := Int.emod_nonneg _ (by norm_num)
  omega

set_option maxRecDepth 100000 in
/-- C4, amended, in the registry `exState2`: the ids 0 and 1 of `rain.xdsl`
and `wide.xdsl` give keys with bytes 0 and 1 in front. -/
theorem evidence_key_byte0_separates_witness :
    (getProb exEnv exState2 "rain.xdsl" exTarget (fun _ => 0) none 2).2.key
      = some [0, 255, 255] ∧
    (getProb exEnv exState2 "wide.xdsl" exTarget (fun _ => 0) none 2).2.key
      = some [1, 255, 255] ∧
    ([0, 255, 255] : List Nat).head? ≠ ([1, 255, 255] : List Nat).head? :=
  have h1 : (getProb exEnv exState2 "rain.xdsl" exTarget (fun _ => 0) none 2).2.key
      = some [0, 255, 255] :=
    (getProb_key_none exEnv exState2 "rain.xdsl" exTarget _ 2 exRain (by decide)
      (by decide)).trans (by decide)
  have h2 : (getProb exEnv exState2 "wide.xdsl" exTarget (fun _ => 0) none 2).2.key
      = some [1, 255, 255] :=
    (getProb_key_none exEnv exState2 "wide.xdsl" exTarget _ 2 exWide (by decide)
      (by decide)).trans (by decide)
  ⟨h1, h2,
    evidence_key_byte0_separates exEnv exState2 exState2 "rain.xdsl" "wide.xdsl" exTarget
      exTarget (fun _ => 0) (fun _ => 0) none none 2 2 [0, 255, 255] [1, 255, 255] h1 h2
      (by decide)⟩

end Key

/-! ## Errors of `getProb` -/

section Errors

/-- C6: on a loaded network and with a target that resolves, an evidence entry
with `id <= 0` whose name `FindNode` does not know makes `getProb` return
`SMILE_BAD_EVIDENCE_NAME`, with the belief cache `prob_hash` as it was before
the call and without a call to `UpdateBeliefs`. -/
theorem getProb_bad_evidence_name [LinearOrderedField R] (E : Env R) (s : State R)
    (fname : String) (target : node) (val : Nat → R) (ev : Nat → node) (nevidence : Nat)
    (nw : DSL_network) (hptr : (getNetwork E s fname).2.ptr = some nw)
    (ht : ¬ (target.id ≤ 0 ∧ nw.FindNode target.name = DSL_OUT_OF_RANGE))
    (i : Nat) (hi : i < nevidence) (hid : (ev i).id ≤ 0)
    (hname : nw.FindNode (ev i).name = DSL_OUT_OF_RANGE) :
    (getProb E s fname target val (some ev) nevidence).2.status = SMILE_BAD_EVIDENCE_NAME ∧
    (getProb E s fname target val (some ev) nevidence).1.prob_hash = s.prob_hash ∧
    (getProb E s fname target val (some ev) nevidence).1.updates = s.updates := by
  have ht1 : ¬ (target.id ≤ 0 ∧ (resolveId nw target).id = DSL_OUT_OF_RANGE) := by
    rintro ⟨h1, h2⟩
    apply ht
    refine ⟨h1, ?_⟩
    simpa [resolveId, h1] using h2
  have hall : (resolveEvidenceIds nw ev nevidence).2 = false := by
    simp only [resolveEvidenceIds, List.all_eq_false]
    exact ⟨i, List.mem_range.mpr hi, by simp [hid, hname]⟩
  have e : getProb E s fname target val (some ev) nevidence
      = ((getNetwork E s fname).1,
          ⟨SMILE_BAD_EVIDENCE_NAME, resolveId nw target, val,
            some (resolveEvidenceIds nw ev nevidence).1, none⟩) := by
    rw [getProb_loaded E s fname target val (some ev) nevidence nw hptr, if_neg ht1]
    simp only [hall, if_true]
  rw [e]
  exact ⟨rfl, (getNetwork_prob_hash E s fname).1, (getNetwork_prob_hash E s fname).2⟩

/-- C6 on the initial state: `rain.xdsl` loads during the call, the target
`Rain` resolves, the evidence names `Ghost`. -/
theorem getProb_bad_evidence_name_witness :
    (getProb exEnv (State.init ℚ) "rain.xdsl" exTarget (fun _ => 0) (some exGhost) 1).2.status
      = SMILE_BAD_EVIDENCE_NAME ∧
    (getProb exEnv (State.init ℚ) "rain.xdsl" exTarget (fun _ => 0) (some exGhost) 1).1.prob_hash
      = (State.init ℚ).prob_hash ∧
    (getProb exEnv (State.init ℚ) "rain.xdsl" exTarget (fun _ => 0) (some exGhost) 1).1.updates
      = (State.init ℚ).updates :=
  getProb_bad_evidence_name exEnv (State.init ℚ) "rain.xdsl" exTarget (fun _ => 0) exGhost 1
    exRain (by decide) (by decide) 0 (by decide) (by decide) (by decide)

end Errors

/-! ## The belief cache -/

section Cache

theorem foldl_add_eq_sum [LinearOrderedField R] (f : Nat → R) (l : List Nat) (a : R) :
    l.foldl (fun acc i => acc + f i) a = a + (l.map f).sum := by
  induction l generalizing a with
  | nil => simp
  | cons x xs ih => simp [List.foldl_cons, ih, add_assoc]

/-- The sum `prob_tot` is the sum of the first `count` entries of the bucket. -/
theorem prob_tot_eq_sum [LinearOrderedField R] (prob_hash : Nat → R) (h : Nat)
    (count : Int) :
    prob_tot prob_hash h count = ((List.range count.toNat).map (cell prob_hash h)).sum := by
  unfold prob_tot
  rw [foldl_add_eq_sum]
  simp

/-- The sum over a bucket of the zero-initialised array. -/
theorem prob_tot_zero [LinearOrderedField R] (h : Nat) (count : Int) :
    prob_tot (fun _ => (0 : R)) h count = 0 := by
  rw [prob_tot_eq_sum]
  have e : cell (fun _ => (0 : R)) h = fun _ => (0 : R) := rfl
  rw [e]
  simp

/-- A cell of the stored row holds the stored value. -/
theorem cell_storeRow_same (prob_hash : Nat → R) (h count : Nat) (val : Nat → R) (i : Nat)
    (hi : i < count) : cell (storeRow prob_hash h count val) h i = val i := by
  have h1 : h * MAX_UB1 ≤ h * MAX_UB1 + i ∧ h * MAX_UB1 + i < h * MAX_UB1 + count :=
    ⟨Nat.le_add_right _ _, Nat.add_lt_add_left hi _⟩
  simp only [cell, storeRow, h1, and_self, if_true, Nat.add_sub_cancel_left]

/-- A store of at most `MAX_UB1` entries stays in its row. -/
theorem cell_storeRow_other (prob_hash : Nat → R) (h h2 count : Nat) (val : Nat → R) (i : Nat)
    (hne : h ≠ h2) (hc : count ≤ MAX_UB1) (hi : i < MAX_UB1) :
    cell (storeRow prob_hash h count val) h2 i = cell prob_hash h2 i := by
  have h1 : ¬ (h * MAX_UB1 ≤ h2 * MAX_UB1 + i ∧ h2 * MAX_UB1 + i < h * MAX_UB1 + count) := by
    unfold MAX_UB1 at *
    omega
  simp only [cell, storeRow, h1, if_false]

/-- What the tail of `getProb` leaves untouched. -/
theorem lookupOrInfer_frame [LinearOrderedField R] (E : Env R) (s : State R) (nw : DSL_network)
    (key : List Nat) (calls : List (Int × Int)) (target : node) (val : Nat → R)
    (evidence : Option (Nat → node)) :
    (lookupOrInfer E s nw key calls target val evidence).2.target = target ∧
    (lookupOrInfer E s nw key calls target val evidence).2.evidence = evidence ∧
    (lookupOrInfer E s nw key calls target val evidence).1.nets = s.nets := by
  simp only [lookupOrInfer]
  split_ifs
  · exact ⟨rfl, rfl, rfl⟩
  · split
    · split_ifs <;> exact ⟨rfl, rfl, rfl⟩
    · exact ⟨rfl, rfl, rfl⟩

/-- A run of the tail of `getProb` that returns `SMILE_OK` is a hit, or a miss
followed by a store of the posterior. -/
theorem lookupOrInfer_ok [LinearOrderedField R] (E : Env R) (s : State R) (nw : DSL_network)
    (key : List Nat) (calls : List (Int × Int)) (target : node) (val : Nat → R)
    (evidence : Option (Nat → node))
    (hok : (lookupOrInfer E s nw key calls target val evidence).2.status = SMILE_OK) :
    (1 / 2 < prob_tot s.prob_hash ((E.hash key 0) &&& hashmask 16) target.count ∧
      lookupOrInfer E s nw key calls target val evidence
        = (s, ⟨SMILE_OK, target,
            fun i => if i < target.count.toNat
              then cell s.prob_hash ((E.hash key 0) &&& hashmask 16) i else val i,
            evidence, some key⟩)) ∨
    (∃ mat : List R,
      ¬ 1 / 2 < prob_tot s.prob_hash ((E.hash key 0) &&& hashmask 16) target.count ∧
      E.posterior nw calls target.id = some mat ∧ (mat.length : Int) = target.count ∧
      lookupOrInfer E s nw key calls target val evidence
        = ({ s with
              updates := s.updates + 1,
              prob_hash := storeRow s.prob_hash ((E.hash key 0) &&& hashmask 16)
                target.count.toNat (fun i => if i < mat.length then mat.getD i 0 else val i) },
           ⟨SMILE_OK, target, fun i => if i < mat.length then mat.getD i 0 else val i,
             evidence, some key⟩)) := by
  by_cases h1 : 1 / 2 < prob_tot s.prob_hash ((E.hash key 0) &&& hashmask 16) target.count
  · left
    refine ⟨h1, ?_⟩
    simp only [lookupOrInfer, gt_iff_lt, h1, if_true]
  · right
    rcases hp : E.posterior nw calls target.id with _ | mat
    · simp only [lookupOrInfer, gt_iff_lt, h1, if_false, hp] at hok
      exact absurd hok (by decide)
    · by_cases h2 : (mat.length : Int) = target.count
      · refine ⟨mat, h1, rfl, h2, ?_⟩
        simp only [lookupOrInfer, gt_iff_lt, h1, if_false, hp, ne_eq, h2, not_true_eq_false]
      · simp only [lookupOrInfer, gt_iff_lt, h1, if_false, hp, ne_eq, h2, not_false_eq_true,
          if_true] at hok
        exact absurd hok (by decide)

/-- After a run of the tail of `getProb` that returned `SMILE_OK` with a
vector of sum above one half, the bucket of the key holds that vector, and
passes the test of a hit. -/
theorem lookupOrInfer_stored [LinearOrderedField R] (E : Env R) (s : State R)
    (nw : DSL_network) (key : List Nat) (calls : List (Int × Int)) (target : node)
    (val : Nat → R) (evidence : Option (Nat → node))
    (hok : (lookupOrInfer E s nw key calls target val evidence).2.status = SMILE_OK)
    (hsum : 1 / 2 < ((List.range target.count.toNat).map
      (lookupOrInfer E s nw key calls target val evidence).2.val).sum) :
    (∀ i, i < target.count.toNat →
      cell (lookupOrInfer E s nw key calls target val evidence).1.prob_hash
          ((E.hash key 0) &&& hashmask 16) i
        = (lookupOrInfer E s nw key calls target val evidence).2.val i) ∧
    1 / 2 < prob_tot (lookupOrInfer E s nw key calls target val evidence).1.prob_hash
      ((E.hash key 0) &&& hashmask 16) target.count := by
  have hbucket : ∀ i, i < target.count.toNat →
      cell (lookupOrInfer E s nw key calls target val evidence).1.prob_hash
          ((E.hash key 0) &&& hashmask 16) i
        = (lookupOrInfer E s nw key calls target val evidence).2.val i := by
    intro i hi
    rcases lookupOrInfer_ok E s nw key calls target val evidence hok with ⟨_, e⟩ | ⟨mat, _, _, _, e⟩
    · rw [e]
      simp only [hi, if_true]
    · rw [e]
      simp only []
      rw [cell_storeRow_same _ _ _ _ i hi]
  refine ⟨hbucket, ?_⟩
  rw [prob_tot_eq_sum]
  have : (List.range target.count.toNat).map
        (cell (lookupOrInfer E s nw key calls target val evidence).1.prob_hash
          ((E.hash key 0) &&& hashmask 16))
      = (List.range target.count.toNat).map
          (lookupOrInfer E s nw key calls target val evidence).2.val := by
    apply List.map_congr_left
    intro i hi
    exact hbucket i (List.mem_range.mp hi)
  rw [this]
  exact hsum

/-- Round trip through the tail of `getProb`: after a run that returned
`SMILE_OK` with a vector of sum above one half, a run with the same key in a
state with the same cache is a hit on that vector and changes nothing. -/
theorem lookupOrInfer_roundtrip [LinearOrderedField R] (E : Env R) (s : State R)
    (nw : DSL_network) (key : List Nat) (calls : List (Int × Int)) (target : node)
    (val : Nat → R) (evidence : Option (Nat → node))
    (hok : (lookupOrInfer E s nw key calls target val evidence).2.status = SMILE_OK)
    (hsum : 1 / 2 < ((List.range target.count.toNat).map
      (lookupOrInfer E s nw key calls target val evidence).2.val).sum)
    (s2 : State R) (val2 : Nat → R) (evidence2 : Option (Nat → node))
    (hs2 : s2.prob_hash = (lookupOrInfer E s nw key calls target val evidence).1.prob_hash) :
    lookupOrInfer E s2 nw key calls target val2 evidence2
      = (s2, ⟨SMILE_OK, target,
          fun i => if i < target.count.toNat
            then (lookupOrInfer E s nw key calls target val evidence).2.val i else val2 i,
          evidence2, some key⟩) := by
  obtain ⟨hst, hhit0⟩ := lookupOrInfer_stored E s nw key calls target val evidence hok hsum
  rw [← hs2] at hst hhit0
  have hbucket : ∀ i, i < target.count.toNat →
      cell s2.prob_hash ((E.hash key 0) &&& hashmask 16) i
        = (lookupOrInfer E s nw key calls target val evidence).2.val i := hst
  have hhit : 1 / 2 < prob_tot s2.prob_hash ((E.hash key 0) &&& hashmask 16) target.count :=
    hhit0
  simp only [lookupOrInfer, gt_iff_lt, hhit, if_true]
  congr 2
  funext i
  by_cases hi : i < target.count.toNat
  · simp only [hi, if_true]
    exact hbucket i hi
  · simp only [hi, if_false]

theorem resolveId_fields (nw : DSL_network) (e : node) :
    (resolveId nw e).name = e.name ∧ (resolveId nw e).state = e.state ∧
    (resolveId nw e).stateid = e.stateid ∧ (resolveId nw e).count = e.count := by
  unfold resolveId
  split_ifs <;> exact ⟨rfl, rfl, rfl, rfl⟩

theorem resolveId_idem (nw : DSL_network) (e : node) :
    resolveId nw (resolveId nw e) = resolveId nw e := by
  unfold resolveId
  by_cases h : e.id ≤ 0
  · simp only [h, if_true]
    split_ifs <;> rfl
  · simp only [h, if_false]

theorem setStateId_fields (nw : DSL_network) (e : node) :
    (setStateId nw e).name = e.name ∧ (setStateId nw e).id = e.id ∧
    (setStateId nw e).state = e.state ∧ (setStateId nw e).count = e.count := by
  simp only [setStateId]
  split_ifs <;> exact ⟨rfl, rfl, rfl, rfl⟩

theorem setStateId_idem (nw : DSL_network) (e : node) :
    setStateId nw (setStateId nw e) = setStateId nw e := by
  simp only [setStateId]
  by_cases h : e.state = ""
  · simp only [h, if_true]
  · simp only [h, if_false]
    by_cases h2 : (nw.outcomes e.id).indexOf e.state < (nw.outcomes e.id).length
    · simp only [h2, if_true, h, if_false]
    · simp only [h2, if_false, h]

theorem resolveId_setStateId (nw : DSL_network) (e : node) (h : resolveId nw e = e) :
    resolveId nw (setStateId nw e) = setStateId nw e := by
  obtain ⟨hn, hi, _, _⟩ := setStateId_fields nw e
  unfold resolveId at h ⊢
  rw [hi, hn]
  by_cases h0 : e.id ≤ 0
  · simp only [h0, if_true] at h ⊢
    have h1 : nw.FindNode e.name = e.id := by
      have := congrArg node.id h
      simpa using this
    rw [h1, ← hi, ← hn]
  · simp only [h0, if_false]

/-- The target test of smile_c.cpp:204-210 passes again on the resolved target. -/
theorem resolveId_target_again (nw : DSL_network) (t : node)
    (h : ¬ (t.id ≤ 0 ∧ (resolveId nw t).id = DSL_OUT_OF_RANGE)) :
    ¬ ((resolveId nw t).id ≤ 0 ∧ (resolveId nw (resolveId nw t)).id = DSL_OUT_OF_RANGE) := by
  rw [resolveId_idem]
  rintro ⟨h1, h2⟩
  by_cases h0 : t.id ≤ 0
  · exact h ⟨h0, h2⟩
  · apply h0
    have : resolveId nw t = t := by simp [resolveId, h0]
    rw [this] at h1
    exact h1

/-- The evidence array after both loops of `getProb` is a fixed point of both. -/
theorem evidence_prepared (nw : DSL_network) (ev : Nat → node) (n : Nat)
    (hok : (resolveEvidenceIds nw ev n).2 = true) :
    (resolveEvidenceIds nw (setStateIds nw (resolveEvidenceIds nw ev n).1 n) n).1
      = setStateIds nw (resolveEvidenceIds nw ev n).1 n ∧
    (resolveEvidenceIds nw (setStateIds nw (resolveEvidenceIds nw ev n).1 n) n).2 = true ∧
    setStateIds nw (setStateIds nw (resolveEvidenceIds nw ev n).1 n) n
      = setStateIds nw (resolveEvidenceIds nw ev n).1 n := by
  refine ⟨?_, ?_, ?_⟩
  · funext i
    simp only [resolveEvidenceIds, setStateIds]
    by_cases hi : i < n
    · simp only [hi, if_true]
      exact resolveId_setStateId nw _ (resolveId_idem nw (ev i))
    · simp only [hi, if_false]
  · simp only [resolveEvidenceIds, List.all_eq_true, List.mem_range] at hok ⊢
    intro i hi
    have h1 := hok i hi
    simp only [setStateIds, hi, if_true]
    obtain ⟨hn, hid, _, _⟩ := setStateId_fields nw (resolveId nw (ev i))
    rw [hid, hn, (resolveId_fields nw (ev i)).1]
    by_cases h0 : (ev i).id ≤ 0
    · simp only [h0, decide_True, Bool.true_and, Bool.not_eq_true', decide_eq_false_iff_not] at h1
      simp [h1]
    · have : resolveId nw (ev i) = ev i := by simp [resolveId, h0]
      rw [this]
      simp [h0]
  · funext i
    simp only [setStateIds]
    by_cases hi : i < n
    · simp only [hi, if_true]
      exact setStateId_idem nw _
    · simp only [hi, if_false]

/-- A call of `getProb` that returns `SMILE_OK` went through the tail of the
function with some key, and so does every later call with the same file, the
target and evidence as the first call left them, in any state with the same
registry. -/
theorem getProb_ok_tail [LinearOrderedField R] (E : Env R) (s : State R) (fname : String)
    (target : node) (val : Nat → R) (evidence : Option (Nat → node)) (nevidence : Nat)
    (hok : (getProb E s fname target val evidence nevidence).2.status = SMILE_OK) :
    ∃ (nw : DSL_network) (key : List Nat) (calls : List (Int × Int))
      (ev1 : Option (Nat → node)),
      getProb E s fname target val evidence nevidence
        = lookupOrInfer E (getNetwork E s fname).1 nw key calls (resolveId nw target) val ev1 ∧
      ∀ (s2 : State R) (val2 : Nat → R), s2.nets = (getNetwork E s fname).1.nets →
        getProb E s2 fname (resolveId nw target) val2 ev1 nevidence
          = lookupOrInfer E s2 nw key calls (resolveId nw target) val2 ev1 := by
  rcases hptr : (getNetwork E s fname).2.ptr with _ | nw
  · rw [getProb_null E s fname target val evidence nevidence hptr] at hok
    exact absurd (show SMILE_BAD_XDSL = SMILE_OK from hok) (by decide)
  · have hne : (getNetwork E s fname).2.ptr ≠ none := by simp [hptr]
    have hagain : ∀ s2 : State R, s2.nets = (getNetwork E s fname).1.nets →
        getNetwork E s2 fname = (s2, (getNetwork E s fname).2) :=
      fun s2 h2 => getNetwork_again E s s2 fname hne h2
    have e1 := getProb_loaded E s fname target val evidence nevidence nw hptr
    by_cases ht : target.id ≤ 0 ∧ (resolveId nw target).id = DSL_OUT_OF_RANGE
    · rw [e1, if_pos ht] at hok
      exact absurd (show SMILE_BAD_TARGET_NAME = SMILE_OK from hok) (by decide)
    · rw [if_neg ht] at e1
      cases evidence with
      | none =>
        refine ⟨nw, _, _, none, e1, ?_⟩
        intro s2 val2 hs2
        have hptr2 : (getNetwork E s2 fname).2.ptr = some nw := by rw [hagain s2 hs2]; exact hptr
        rw [getProb_loaded E s2 fname _ val2 none nevidence nw hptr2,
          if_neg (resolveId_target_again nw target ht), hagain s2 hs2, resolveId_idem]
      | some ev =>
        simp only at e1
        by_cases hall : (resolveEvidenceIds nw ev nevidence).2 = false
        · rw [e1, if_pos hall] at hok
          exact absurd (show SMILE_BAD_EVIDENCE_NAME = SMILE_OK from hok) (by decide)
        · rw [if_neg hall] at e1
          have hall1 : (resolveEvidenceIds nw ev nevidence).2 = true := by simpa using hall
          obtain ⟨p1, p2, p3⟩ := evidence_prepared nw ev nevidence hall1
          refine ⟨nw, _, _, _, e1, ?_⟩
          intro s2 val2 hs2
          have hptr2 : (getNetwork E s2 fname).2.ptr = some nw := by
            rw [hagain s2 hs2]; exact hptr
          rw [getProb_loaded E s2 fname _ val2 _ nevidence nw hptr2,
            if_neg (resolveId_target_again nw target ht), hagain s2 hs2, resolveId_idem]
          simp only [p1, p2, p3, Bool.true_eq_false, if_false]

/-- With one and the same engine: when a call of `getProb` has returned
`SMILE_OK` with a vector whose first `target.count` entries sum to more than
one half, the next call with the same file, target, evidence and `nevidence`
returns `SMILE_OK` with the same entries, uses the same key, and leaves every
static as it was. -/
theorem getProb_again_same_engine [LinearOrderedField R] (E : Env R) (s : State R)
    (fname : String) (target : node) (val val2 : Nat → R) (evidence : Option (Nat → node))
    (nevidence : Nat)
    (hok : (getProb E s fname target val evidence nevidence).2.status = SMILE_OK)
    (hsum : 1 / 2 < ((List.range target.count.toNat).map
      (getProb E s fname target val evidence nevidence).2.val).sum) :
    (getProb E (getProb E s fname target val evidence nevidence).1 fname
      (getProb E s fname target val evidence nevidence).2.target val2
      (getProb E s fname target val evidence nevidence).2.evidence nevidence).2.status
        = SMILE_OK ∧
    (∀ i, i < target.count.toNat →
      (getProb E (getProb E s fname target val evidence nevidence).1 fname
        (getProb E s fname target val evidence nevidence).2.target val2
        (getProb E s fname target val evidence nevidence).2.evidence nevidence).2.val i
        = (getProb E s fname target val evidence nevidence).2.val i) ∧
    (getProb E (getProb E s fname target val evidence nevidence).1 fname
      (getProb E s fname target val evidence nevidence).2.target val2
      (getProb E s fname target val evidence nevidence).2.evidence nevidence).2.key
        = (getProb E s fname target val evidence nevidence).2.key ∧
    (getProb E (getProb E s fname target val evidence nevidence).1 fname
      (getProb E s fname target val evidence nevidence).2.target val2
      (getProb E s fname target val evidence nevidence).2.evidence nevidence).1
        = (getProb E s fname target val evidence nevidence).1 ∧
    (getProb E (getProb E s fname target val evidence nevidence).1 fname
      (getProb E s fname target val evidence nevidence).2.target val2
      (getProb E s fname target val evidence nevidence).2.evidence nevidence).1.updates
        = (getProb E s fname target val evidence nevidence).1.updates := by
  obtain ⟨nw, key, calls, ev1, e1, e2⟩ := getProb_ok_tail E s fname target val evidence nevidence hok
  rw [e1] at hok hsum ⊢
  obtain ⟨f1, f2, f3⟩ := lookupOrInfer_frame E (getNetwork E s fname).1 nw key calls
    (resolveId nw target) val ev1
  have hc : (resolveId nw target).count = target.count := (resolveId_fields nw target).2.2.2
  rw [← hc] at hsum
  have e3 := lookupOrInfer_roundtrip E (getNetwork E s fname).1 nw key calls
    (resolveId nw target) val ev1 hok hsum _ val2 ev1 rfl
  rw [f1, f2, e2 _ val2 f3, e3, lookupOrInfer_key]
  refine ⟨rfl, ?_, rfl, rfl, rfl⟩
  intro i hi
  simp [hc, hi]

/-- A miss of the tail of `getProb` whose posterior is valid and of the
declared size: the posterior is returned and stored. -/
theorem lookupOrInfer_miss [LinearOrderedField R] (E : Env R) (s : State R) (nw : DSL_network)
    (key : List Nat) (calls : List (Int × Int)) (target : node) (val : Nat → R)
    (evidence : Option (Nat → node)) (mat : List R)
    (h1 : ¬ 1 / 2 < prob_tot s.prob_hash ((E.hash key 0) &&& hashmask 16) target.count)
    (hp : E.posterior nw calls target.id = some mat) (h2 : (mat.length : Int) = target.count) :
    lookupOrInfer E s nw key calls target val evidence
      = ({ s with
            updates := s.updates + 1,
            prob_hash := storeRow s.prob_hash ((E.hash key 0) &&& hashmask 16)
              target.count.toNat (fun i => if i < mat.length then mat.getD i 0 else val i) },
         ⟨SMILE_OK, target, fun i => if i < mat.length then mat.getD i 0 else val i,
           evidence, some key⟩) := by
  simp only [lookupOrInfer, gt_iff_lt, h1, if_false, hp, ne_eq, h2, not_true_eq_false]

/-- The first query of the scenario on the initial state, without evidence:
a miss that returns the posterior `[0.3, 0.7]`. -/
theorem exRun_first :
    (getProb exEnv (State.init ℚ) "rain.xdsl" exTarget (fun _ => 0) none 2).2.status = SMILE_OK ∧
    (getProb exEnv (State.init ℚ) "rain.xdsl" exTarget (fun _ => 0) none 2).2.val 0 = 3 / 10 ∧
    (getProb exEnv (State.init ℚ) "rain.xdsl" exTarget (fun _ => 0) none 2).2.val 1 = 7 / 10 := by
  have hp := (getNetwork_prob_hash exEnv (State.init ℚ) "rain.xdsl").1
  have hc : (resolveId exRain exTarget).count = 2 := by decide
  rw [getProb_loaded exEnv (State.init ℚ) "rain.xdsl" exTarget _ none 2 exRain (by decide),
    if_neg (by decide)]
  simp only []
  rw [lookupOrInfer_miss exEnv _ exRain _ [] _ _ none [3 / 10, 7 / 10]]
  · simp
  · rw [hp]
    show ¬ 1 / 2 < prob_tot (fun _ => (0 : ℚ)) _ _
    rw [prob_tot_zero]
    norm_num
  · rfl
  · rw [hc]
    rfl

/-- A hit does not consult the engine: a run of the tail of `getProb` that
leaves the count of `UpdateBeliefs` calls as it was is the same run for every
posterior function. -/
theorem lookupOrInfer_posterior_free [LinearOrderedField R] (E : Env R) (s : State R)
    (nw : DSL_network) (key : List Nat) (calls : List (Int × Int)) (target : node)
    (val : Nat → R) (evidence : Option (Nat → node))
    (posterior2 : DSL_network → List (Int × Int) → Int → Option (List R))
    (hu : (lookupOrInfer E s nw key calls target val evidence).1.updates = s.updates) :
    lookupOrInfer ⟨E.hash, E.ReadFile, posterior2⟩ s nw key calls target val evidence
      = lookupOrInfer E s nw key calls target val evidence := by
  by_cases h1 : 1 / 2 < prob_tot s.prob_hash ((E.hash key 0) &&& hashmask 16) target.count
  · simp only [lookupOrInfer, gt_iff_lt, h1, if_true]
  · exfalso
    simp only [lookupOrInfer, gt_iff_lt, h1, if_false] at hu
    split at hu
    · split_ifs at hu <;> simp at hu
    · simp at hu

/-- A call of `getProb` that leaves the count of `UpdateBeliefs` calls as it
was is the same call for every posterior function. -/
theorem getProb_posterior_free [LinearOrderedField R] (E : Env R) (s : State R)
    (fname : String) (target : node) (val : Nat → R) (evidence : Option (Nat → node))
    (nevidence : Nat)
    (posterior2 : DSL_network → List (Int × Int) → Int → Option (List R))
    (hu : (getProb E s fname target val evidence nevidence).1.updates = s.updates) :
    getProb ⟨E.hash, E.ReadFile, posterior2⟩ s fname target val evidence nevidence
      = getProb E s fname target val evidence nevidence := by
  have hg : getNetwork ⟨E.hash, E.ReadFile, posterior2⟩ s fname = getNetwork E s fname := rfl
  have hgu := (getNetwork_prob_hash E s fname).2
  rcases hptr : (getNetwork E s fname).2.ptr with _ | nw
  · rw [getProb_null E s fname target val evidence nevidence hptr,
      getProb_null _ s fname target val evidence nevidence (by rw [hg]; exact hptr), hg]
  · have e0 := getProb_loaded E s fname target val evidence nevidence nw hptr
    have e1 := getProb_loaded ⟨E.hash, E.ReadFile, posterior2⟩ s fname target val evidence
      nevidence nw (by rw [hg]; exact hptr)
    rw [hg] at e1
    rw [e0] at hu
    rw [e0, e1]
    by_cases ht : target.id ≤ 0 ∧ (resolveId nw target).id = DSL_OUT_OF_RANGE
    · rw [if_pos ht, if_pos ht]
    · rw [if_neg ht, if_neg ht]
      rw [if_neg ht] at hu
      cases evidence with
      | none =>
        simp only [] at hu ⊢
        exact lookupOrInfer_posterior_free E _ nw _ _ _ val none posterior2 (hu.trans hgu.symm)
      | some ev =>
        simp only [] at hu ⊢
        by_cases hall : (resolveEvidenceIds nw ev nevidence).2 = false
        · rw [if_pos hall, if_pos hall]
        · rw [if_neg hall, if_neg hall]
          rw [if_neg hall] at hu
          exact lookupOrInfer_posterior_free E _ nw _ _ _ val _ posterior2 (hu.trans hgu.symm)

/-- C2: when a call of `getProb` has returned `SMILE_OK` with a vector `v`
whose first `target.count` entries sum to more than one half (on a miss, `v`
was just stored), then the bucket of its key in `prob_hash` holds `v`, entry
for entry, and the next call with the same file, target, evidence and
`nevidence` returns `SMILE_OK` with exactly the entries of `v`, whatever the
inference engine would answer (`posterior2` is arbitrary): it uses the same
key, leaves every static as it was, and does not call `UpdateBeliefs`. -/
theorem getProb_cache_roundtrip [LinearOrderedField R] (E : Env R) (s : State R)
    (fname : String) (target : node) (val val2 : Nat → R) (evidence : Option (Nat → node))
    (nevidence : Nat)
    (posterior2 : DSL_network → List (Int × Int) → Int → Option (List R))
    (hok : (getProb E s fname target val evidence nevidence).2.status = SMILE_OK)
    (hsum : 1 / 2 < ((List.range target.count.toNat).map
      (getProb E s fname target val evidence nevidence).2.val).sum) :
    (∃ k, (getProb E s fname target val evidence nevidence).2.key = some k ∧
      ∀ i, i < target.count.toNat →
        cell (getProb E s fname target val evidence nevidence).1.prob_hash
            ((E.hash k 0) &&& hashmask 16) i
          = (getProb E s fname target val evidence nevidence).2.val i) ∧
    (getProb ⟨E.hash, E.ReadFile, posterior2⟩ (getProb E s fname target val evidence nevidence).1 fname
      (getProb E s fname target val evidence nevidence).2.target val2
      (getProb E s fname target val evidence nevidence).2.evidence nevidence).2.status
        = SMILE_OK ∧
    (∀ i, i < target.count.toNat →
      (getProb ⟨E.hash, E.ReadFile, posterior2⟩ (getProb E s fname target val evidence nevidence).1 fname
      (getProb E s fname target val evidence nevidence).2.target val2
      (getProb E s fname target val evidence nevidence).2.evidence nevidence).2.val i
        = (getProb E s fname target val evidence nevidence).2.val i) ∧
    (getProb ⟨E.hash, E.ReadFile, posterior2⟩ (getProb E s fname target val evidence nevidence).1 fname
      (getProb E s fname target val evidence nevidence).2.target val2
      (getProb E s fname target val evidence nevidence).2.evidence nevidence).2.key
        = (getProb E s fname target val evidence nevidence).2.key ∧
    (getProb ⟨E.hash, E.ReadFile, posterior2⟩ (getProb E s fname target val evidence nevidence).1 fname
      (getProb E s fname target val evidence nevidence).2.target val2
      (getProb E s fname target val evidence nevidence).2.evidence nevidence).1
        = (getProb E s fname target val evidence nevidence).1 ∧
    (getProb ⟨E.hash, E.ReadFile, posterior2⟩ (getProb E s fname target val evidence nevidence).1 fname
      (getProb E s fname target val evidence nevidence).2.target val2
      (getProb E s fname target val evidence nevidence).2.evidence nevidence).1.updates
        = (getProb E s fname target val evidence nevidence).1.updates := by
  have old := getProb_again_same_engine E s fname target val val2 evidence nevidence hok hsum
  have hu := old.2.2.2.2
  rw [getProb_posterior_free E _ fname _ val2 _ nevidence posterior2 hu]
  refine ⟨?_, old⟩
  obtain ⟨nw, key, calls, ev1, e1, _⟩ :=
    getProb_ok_tail E s fname target val evidence nevidence hok
  rw [e1] at hok hsum ⊢
  have hc : (resolveId nw target).count = target.count := (resolveId_fields nw target).2.2.2
  rw [← hc] at hsum ⊢
  exact ⟨key, lookupOrInfer_key _ _ _ _ _ _ _ _,
    (lookupOrInfer_stored E _ nw key calls _ val ev1 hok hsum).1⟩

/-- C2 on the first query of the scenario: the first call is a miss that
stores `[0.3, 0.7]` in the bucket of the key `[0, 255, 255]`; the second call,
made with an engine that would report an invalid value, returns `SMILE_OK` and
`[0.3, 0.7]` with the same key, and leaves the statics, the count of
`UpdateBeliefs` calls among them, as the first call left them. -/
theorem getProb_cache_roundtrip_witness :
    cell (getProb exEnv (State.init ℚ) "rain.xdsl" exTarget (fun _ => 0) none 2).1.prob_hash
        ((exEnv.hash [0, 255, 255] 0) &&& hashmask 16) 0 = 3 / 10 ∧
    cell (getProb exEnv (State.init ℚ) "rain.xdsl" exTarget (fun _ => 0) none 2).1.prob_hash
        ((exEnv.hash [0, 255, 255] 0) &&& hashmask 16) 1 = 7 / 10 ∧
    (getProb ⟨exEnv.hash, exEnv.ReadFile, fun _ _ _ => none⟩
      (getProb exEnv (State.init ℚ) "rain.xdsl" exTarget (fun _ => 0) none 2).1
      "rain.xdsl"
      (getProb exEnv (State.init ℚ) "rain.xdsl" exTarget (fun _ => 0) none 2).2.target
      (fun _ => 0)
      (getProb exEnv (State.init ℚ) "rain.xdsl" exTarget (fun _ => 0) none 2).2.evidence
      2).2.status = SMILE_OK ∧
    (getProb ⟨exEnv.hash, exEnv.ReadFile, fun _ _ _ => none⟩
      (getProb exEnv (State.init ℚ) "rain.xdsl" exTarget (fun _ => 0) none 2).1
      "rain.xdsl"
      (getProb exEnv (State.init ℚ) "rain.xdsl" exTarget (fun _ => 0) none 2).2.target
      (fun _ => 0)
      (getProb exEnv (State.init ℚ) "rain.xdsl" exTarget (fun _ => 0) none 2).2.evidence
      2).2.val 0 = 3 / 10 ∧
    (getProb ⟨exEnv.hash, exEnv.ReadFile, fun _ _ _ => none⟩
      (getProb exEnv (State.init ℚ) "rain.xdsl" exTarget (fun _ => 0) none 2).1
      "rain.xdsl"
      (getProb exEnv (State.init ℚ) "rain.xdsl" exTarget (fun _ => 0) none 2).2.target
      (fun _ => 0)
      (getProb exEnv (State.init ℚ) "rain.xdsl" exTarget (fun _ => 0) none 2).2.evidence
      2).2.val 1 = 7 / 10 ∧
    (getProb ⟨exEnv.hash, exEnv.ReadFile, fun _ _ _ => none⟩
      (getProb exEnv (State.init ℚ) "rain.xdsl" exTarget (fun _ => 0) none 2).1
      "rain.xdsl"
      (getProb exEnv (State.init ℚ) "rain.xdsl" exTarget (fun _ => 0) none 2).2.target
      (fun _ => 0)
      (getProb exEnv (State.init ℚ) "rain.xdsl" exTarget (fun _ => 0) none 2).2.evidence
      2).2.key
        = (getProb exEnv (State.init ℚ) "rain.xdsl" exTarget (fun _ => 0) none 2).2.key ∧
    (getProb ⟨exEnv.hash, exEnv.ReadFile, fun _ _ _ => none⟩
      (getProb exEnv (State.init ℚ) "rain.xdsl" exTarget (fun _ => 0) none 2).1
      "rain.xdsl"
      (getProb exEnv (State.init ℚ) "rain.xdsl" exTarget (fun _ => 0) none 2).2.target
      (fun _ => 0)
      (getProb exEnv (State.init ℚ) "rain.xdsl" exTarget (fun _ => 0) none 2).2.evidence
      2).1
        = (getProb exEnv (State.init ℚ) "rain.xdsl" exTarget (fun _ => 0) none 2).1 ∧
    (getProb ⟨exEnv.hash, exEnv.ReadFile, fun _ _ _ => none⟩
      (getProb exEnv (State.init ℚ) "rain.xdsl" exTarget (fun _ => 0) none 2).1
      "rain.xdsl"
      (getProb exEnv (State.init ℚ) "rain.xdsl" exTarget (fun _ => 0) none 2).2.target
      (fun _ => 0)
      (getProb exEnv (State.init ℚ) "rain.xdsl" exTarget (fun _ => 0) none 2).2.evidence
      2).1.updates
        = (getProb exEnv (State.init ℚ) "rain.xdsl" exTarget (fun _ => 0) none 2).1.updates := by
  have h := getProb_cache_roundtrip exEnv (State.init ℚ) "rain.xdsl" exTarget (fun _ => 0)
    (fun _ => 0) none 2 (fun _ _ _ => none) exRun_first.1
    (by
      have h := exRun_first
      have e : exTarget.count.toNat = 2 := by decide
      rw [e]
      simp only [List.range_succ, List.range_zero, List.nil_append, List.cons_append,
        List.map_cons, List.map_nil, List.sum_cons, List.sum_nil, h.2.1, h.2.2]
      norm_num)
  obtain ⟨⟨k, hk, hcell⟩, h2⟩ := h
  have hkey : (getProb exEnv (State.init ℚ) "rain.xdsl" exTarget (fun _ => 0) none 2).2.key
      = some [0, 255, 255] :=
    (getProb_key_none exEnv (State.init ℚ) "rain.xdsl" exTarget _ 2 exRain (by decide)
      (by decide)).trans (by decide)
  have ek : k = [0, 255, 255] := Option.some.inj (hk.symm.trans hkey)
  rw [ek] at hcell
  exact ⟨(hcell 0 (by decide)).trans exRun_first.2.1,
    (hcell 1 (by decide)).trans exRun_first.2.2,
    h2.1, (h2.2.1 0 (by decide)).trans exRun_first.2.1,
    (h2.2.1 1 (by decide)).trans exRun_first.2.2, h2.2.2.1, h2.2.2.2.1, h2.2.2.2.2⟩

end Cache

/-! ## Evidence labels that are no outcome -/

section UnknownState

/-- The tail of `getProb` passes its `evidence` argument through and uses it
for nothing else. -/
theorem lookupOrInfer_evidence [LinearOrderedField R] (E : Env R) (s : State R)
    (nw : DSL_network) (key : List Nat) (calls : List (Int × Int)) (target : node)
    (val : Nat → R) (evidence evidence' : Option (Nat → node)) :
    (lookupOrInfer E s nw key calls target val evidence).1
      = (lookupOrInfer E s nw key calls target val evidence').1 ∧
    (lookupOrInfer E s nw key calls target val evidence).2.status
      = (lookupOrInfer E s nw key calls target val evidence').2.status ∧
    (lookupOrInfer E s nw key calls target val evidence).2.val
      = (lookupOrInfer E s nw key calls target val evidence').2.val ∧
    (lookupOrInfer E s nw key calls target val evidence).2.key
      = (lookupOrInfer E s nw key calls target val evidence').2.key ∧
    (lookupOrInfer E s nw key calls target val evidence).2.target
      = (lookupOrInfer E s nw key calls target val evidence').2.target := by
  simp only [lookupOrInfer]
  split_ifs
  · exact ⟨rfl, rfl, rfl, rfl, rfl⟩
  · split
    · split_ifs <;> exact ⟨rfl, rfl, rfl, rfl, rfl⟩
    · exact ⟨rfl, rfl, rfl, rfl, rfl⟩

/-- A label that is no outcome of the entry's variable leaves the entry as it is. -/
theorem setStateId_unknown (nw : DSL_network) (e : node) (h0 : e.state ≠ "")
    (h : e.state ∉ nw.outcomes e.id) : setStateId nw e = e := by
  have h1 : ¬ (nw.outcomes e.id).indexOf e.state < (nw.outcomes e.id).length := by
    rw [List.indexOf_lt_length]
    exact h
  simp only [setStateId, h0, if_false, h1]

/-- With a label that is no outcome, and `stateid = -1` on entry, the entry
comes out of both loops of `getProb` with the id and the state id of the same
entry without a label. -/
theorem prepared_unknown (nw : DSL_network) (e : node)
    (h : e.state ∉ nw.outcomes (resolveId nw e).id) (hs : e.stateid = -1) :
    (setStateId nw (resolveId nw e)).id
      = (setStateId nw (resolveId nw { e with state := "" })).id ∧
    (setStateId nw (resolveId nw e)).stateid
      = (setStateId nw (resolveId nw { e with state := "" })).stateid := by
  have hid : (resolveId nw { e with state := "" }).id = (resolveId nw e).id := by
    unfold resolveId
    split_ifs <;> rfl
  have hst : (resolveId nw { e with state := "" }).state = "" := by
    unfold resolveId
    split_ifs <;> rfl
  refine ⟨?_, ?_⟩
  · rw [(setStateId_fields nw _).2.1, (setStateId_fields nw _).2.1, hid]
  · have r : (setStateId nw (resolveId nw { e with state := "" })).stateid = -1 := by
      simp only [setStateId, hst, if_true]
    rw [r]
    by_cases h0 : e.state = ""
    · have : (resolveId nw e).state = "" := by rw [(resolveId_fields nw e).2.1]; exact h0
      simp only [setStateId, this, if_true]
    · have h0' : (resolveId nw e).state ≠ "" := by rw [(resolveId_fields nw e).2.1]; exact h0
      have h' : (resolveId nw e).state ∉ nw.outcomes (resolveId nw e).id := by
        rw [(resolveId_fields nw e).2.1]; exact h
      rw [setStateId_unknown nw _ h0' h', (resolveId_fields nw e).2.2.1]
      exact hs

/-- C5, the code at a label that is no outcome: on the initial state, with the target `Rain` and the
evidence array `exMaybe` (label `Maybe` for `Sprinkler`, whose outcomes are
`On` and `Off`), `getProb` returns `SMILE_OK`; the slot of `Sprinkler` has the
byte 255 of an unobserved variable in the key. -/
theorem getProb_unknown_state_ok :
    "Maybe" ∉ exRain.outcomes 1 ∧
    (getProb exEnv (State.init ℚ) "rain.xdsl" exTarget (fun _ => 0) (some exMaybe) 2).2.status
      = SMILE_OK ∧
    (getProb exEnv (State.init ℚ) "rain.xdsl" exTarget (fun _ => 0) (some exMaybe) 2).2.key
      = some [0, 255, 255] := by
  have hp := (getNetwork_prob_hash exEnv (State.init ℚ) "rain.xdsl").1
  have hc : (resolveId exRain exTarget).count = 2 := by decide
  refine ⟨by decide, ?_, ?_⟩
  · rw [getProb_loaded exEnv (State.init ℚ) "rain.xdsl" exTarget _ (some exMaybe) 2 exRain
      (by decide), if_neg (by decide)]
    simp only []
    rw [if_neg (by decide), lookupOrInfer_miss exEnv _ exRain _ _ _ _ _ [3 / 10, 7 / 10]]
    · rw [hp]
      show ¬ 1 / 2 < prob_tot (fun _ => (0 : ℚ)) _ _
      rw [prob_tot_zero]
      norm_num
    · show (if setEvidenceCalls (setStateIds exRain (resolveEvidenceIds exRain exMaybe 2).1 2) 2
          = [] then some [3 / 10, 7 / 10] else some [6 / 10, 4 / 10])
        = some ([3 / 10, 7 / 10] : List ℚ)
      rw [if_pos (by decide)]
    · rw [hc]
      rfl
  · rw [getProb_key_some exEnv (State.init ℚ) "rain.xdsl" exTarget _ exMaybe 2 exRain
      (by decide) (by decide) (by decide)]
    decide

/-- What the code does with an evidence entry whose label is no outcome of its
variable: with `stateid = -1` on entry (as `smile_infer` sets it), the call
returns the status, the posterior, the key, the target and the statics of the
same call with the label of that entry empty. -/
theorem getProb_unknown_state_unobserved [LinearOrderedField R] (E : Env R) (s : State R)
    (fname : String) (target : node) (val : Nat → R) (ev : Nat → node) (nevidence k : Nat)
    (hlabel : ∀ nw, (getNetwork E s fname).2.ptr = some nw →
      (ev k).state ∉ nw.outcomes (resolveId nw (ev k)).id)
    (hsid : (ev k).stateid = -1) :
    (getProb E s fname target val (some ev) nevidence).2.status
      = (getProb E s fname target val
          (some (Function.update ev k { ev k with state := "" })) nevidence).2.status ∧
    (getProb E s fname target val (some ev) nevidence).2.val
      = (getProb E s fname target val
          (some (Function.update ev k { ev k with state := "" })) nevidence).2.val ∧
    (getProb E s fname target val (some ev) nevidence).2.key
      = (getProb E s fname target val
          (some (Function.update ev k { ev k with state := "" })) nevidence).2.key ∧
    (getProb E s fname target val (some ev) nevidence).2.target
      = (getProb E s fname target val
          (some (Function.update ev k { ev k with state := "" })) nevidence).2.target ∧
    (getProb E s fname target val (some ev) nevidence).1
      = (getProb E s fname target val
          (some (Function.update ev k { ev k with state := "" })) nevidence).1 := by
  rcases hptr : (getNetwork E s fname).2.ptr with _ | nw
  · rw [getProb_null E s fname target val _ nevidence hptr,
      getProb_null E s fname target val _ nevidence hptr]
    exact ⟨rfl, rfl, rfl, rfl, rfl⟩
  · rw [getProb_loaded E s fname target val _ nevidence nw hptr,
      getProb_loaded E s fname target val _ nevidence nw hptr]
    by_cases ht : target.id ≤ 0 ∧ (resolveId nw target).id = DSL_OUT_OF_RANGE
    · rw [if_pos ht, if_pos ht]
      exact ⟨rfl, rfl, rfl, rfl, rfl⟩
    · rw [if_neg ht, if_neg ht]
      simp only []
      have hfield : ∀ i, (Function.update ev k { ev k with state := "" } i).id = (ev i).id ∧
          (Function.update ev k { ev k with state := "" } i).name = (ev i).name ∧
          (Function.update ev k { ev k with state := "" } i).stateid = (ev i).stateid := by
        intro i
        by_cases hik : i = k
        · subst hik
          simp
        · simp [Function.update_noteq hik]
      have hall : (resolveEvidenceIds nw (Function.update ev k { ev k with state := "" })
          nevidence).2 = (resolveEvidenceIds nw ev nevidence).2 := by
        simp only [resolveEvidenceIds]
        congr 1
        funext i
        rw [(hfield i).1, (hfield i).2.1]
      have hpt : ∀ i,
          (setStateIds nw (resolveEvidenceIds nw (Function.update ev k { ev k with state := "" })
            nevidence).1 nevidence i).id
            = (setStateIds nw (resolveEvidenceIds nw ev nevidence).1 nevidence i).id ∧
          (setStateIds nw (resolveEvidenceIds nw (Function.update ev k { ev k with state := "" })
            nevidence).1 nevidence i).stateid
            = (setStateIds nw (resolveEvidenceIds nw ev nevidence).1 nevidence i).stateid := by
        intro i
        by_cases hik : i = k
        · subst hik
          simp only [setStateIds, resolveEvidenceIds]
          by_cases hi : i < nevidence
          · simp only [hi, if_true, Function.update_same]
            obtain ⟨q1, q2⟩ := prepared_unknown nw (ev i) (hlabel nw hptr) hsid
            exact ⟨q1.symm, q2.symm⟩
          · simp only [hi, if_false, Function.update_same]
            exact ⟨trivial, trivial⟩
        · simp only [setStateIds, resolveEvidenceIds, Function.update_noteq hik]
          exact ⟨trivial, trivial⟩
      have hkey : evidence_key (getNetwork E s fname).2.id
          (some (setStateIds nw (resolveEvidenceIds nw
            (Function.update ev k { ev k with state := "" }) nevidence).1 nevidence)) nevidence
          = evidence_key (getNetwork E s fname).2.id
            (some (setStateIds nw (resolveEvidenceIds nw ev nevidence).1 nevidence))
            nevidence := by
        simp only [evidence_key]
        congr 2
        funext i
        rw [(hpt i).2]
      have hcalls : setEvidenceCalls (setStateIds nw (resolveEvidenceIds nw
            (Function.update ev k { ev k with state := "" }) nevidence).1 nevidence) nevidence
          = setEvidenceCalls (setStateIds nw (resolveEvidenceIds nw ev nevidence).1 nevidence)
            nevidence := by
        simp only [setEvidenceCalls]
        congr 1
        funext i
        rw [(hpt i).1, (hpt i).2]
      rw [hall, hkey, hcalls]
      by_cases hall0 : (resolveEvidenceIds nw ev nevidence).2 = false
      · rw [if_pos hall0, if_pos hall0]
        exact ⟨rfl, rfl, rfl, rfl, rfl⟩
      · rw [if_neg hall0, if_neg hall0]
        obtain ⟨a1, a2, a3, a4, a5⟩ := lookupOrInfer_evidence E (getNetwork E s fname).1 nw
          (evidence_key (getNetwork E s fname).2.id
            (some (setStateIds nw (resolveEvidenceIds nw ev nevidence).1 nevidence)) nevidence)
          (setEvidenceCalls (setStateIds nw (resolveEvidenceIds nw ev nevidence).1 nevidence)
            nevidence)
          (resolveId nw target) val
          (some (setStateIds nw (resolveEvidenceIds nw ev nevidence).1 nevidence))
          (some (setStateIds nw (resolveEvidenceIds nw
            (Function.update ev k { ev k with state := "" }) nevidence).1 nevidence))
        exact ⟨a2, a3, a4, a5, a1⟩

end UnknownState

/-! ## Unobserved against observed -/

section Sentinel

/-- The key of a call of `getProb` that built one, for a non-null evidence array. -/
theorem getProb_key_inv [LinearOrderedField R] (E : Env R) (s : State R) (fname : String)
    (target : node) (val : Nat → R) (ev : Nat → node) (nevidence : Nat) (nw : DSL_network)
    (hptr : (getNetwork E s fname).2.ptr = some nw) (key : List Nat)
    (hkey : (getProb E s fname target val (some ev) nevidence).2.key = some key) :
    key = evidence_key (getNetwork E s fname).2.id
      (some (setStateIds nw (resolveEvidenceIds nw ev nevidence).1 nevidence)) nevidence := by
  rw [getProb_loaded E s fname target val (some ev) nevidence nw hptr] at hkey
  by_cases h1 : target.id ≤ 0 ∧ (resolveId nw target).id = DSL_OUT_OF_RANGE
  · rw [if_pos h1] at hkey
    exact absurd hkey (by simp)
  · rw [if_neg h1] at hkey
    simp only at hkey
    by_cases h2 : (resolveEvidenceIds nw ev nevidence).2 = false
    · rw [if_pos h2] at hkey
      exact absurd hkey (by simp)
    · rw [if_neg h2, lookupOrInfer_key] at hkey
      exact (Option.some.inj hkey).symm

/-- The byte of a non-negative state index. -/
theorem ub1_natCast (j : Nat) : ub1 (j : Int) = j % 256 := by
  unfold ub1
  omega

/-- The byte of slot `k` in the key. -/
theorem evidence_key_slot (id : Int) (ev : Nat → node) (nevidence k : Nat) (hk : k < nevidence) :
    (evidence_key id (some ev) nevidence).get? (k + 1) = some (ub1 (ev k).stateid) := by
  simp [evidence_key, List.getElem?_range hk]

/-- An increasing list has no repetition. -/
theorem nodup_of_exIncreasing (l : List Nat) (h : exIncreasing l = true) : l.Nodup := by
  have hp : ∀ l : List Nat, exIncreasing l = true → l.Pairwise (fun a b => a < b) := by
    intro l
    induction l with
    | nil => intro _; exact List.Pairwise.nil
    | cons a t ih =>
      cases t with
      | nil => intro _; exact List.pairwise_singleton _ _
      | cons b t2 =>
        intro h
        simp only [exIncreasing, Bool.and_eq_true, decide_eq_true_eq] at h
        have ih2 := ih h.2
        refine List.Pairwise.cons ?_ ih2
        intro x hx
        rcases List.mem_cons.mp hx with e | e
        · rw [e]; exact h.1
        · exact lt_trans h.1 (List.rel_of_pairwise_cons ih2 e)
  exact (hp l h).imp (fun hab => Nat.ne_of_lt hab)

set_option maxRecDepth 100000 in
/-- The labels `aa`, `ab`, ... of the example networks are pairwise different. -/
theorem exLabel_nodup : ((List.range 257).map exLabel).Nodup :=
  List.Nodup.of_map exCode (nodup_of_exIncreasing _ (by decide))

set_option maxRecDepth 100000 in
/-- C9 as stated fails for a variable with more than 255 outcomes: in `exWide`
the outcomes of `Level` are 256 different labels of two letters, the label
`jv` of `exLevelLast` is the one of index 255, and the key is the key of
`exLevelNone`, where `Level` is unobserved and the other slot is the same. -/
theorem evidence_key_sentinel_clash :
    (exWide.outcomes 1).length = 256 ∧
    (exWide.outcomes 1).Nodup ∧
    (exWide.outcomes 1).all (fun o => decide ((cbytes o).length = 2)) = true ∧
    (exLevelLast 1).state = "jv" ∧
    (exLevelLast 1).state ∈ exWide.outcomes 1 ∧
    (exWide.outcomes 1).indexOf (exLevelLast 1).state = 255 ∧
    (exLevelNone 1).state = "" ∧
    exLevelLast 0 = exLevelNone 0 ∧
    (getProb exEnv (State.init ℚ) "wide.xdsl" exTarget (fun _ => 0) (some exLevelNone) 2).2.key
      = some [0, 255, 255] ∧
    (getProb exEnv (State.init ℚ) "wide.xdsl" exTarget (fun _ => 0) (some exLevelLast) 2).2.key
      = some [0, 255, 255] := by
  have hnd : (exWide.outcomes 1).Nodup := by
    have e : (List.range 257).map exLabel = exWide.outcomes 1 ++ [exLabel 256] := by decide
    have h := exLabel_nodup
    rw [e] at h
    exact (List.nodup_append.mp h).1
  refine ⟨by decide, hnd, by decide, by decide, by decide, by decide, by decide,
    by decide, ?_, ?_⟩
  · rw [getProb_key_some exEnv (State.init ℚ) "wide.xdsl" exTarget _ exLevelNone 2 exWide
      (by decide) (by decide) (by decide)]
    decide
  · rw [getProb_key_some exEnv (State.init ℚ) "wide.xdsl" exTarget _ exLevelLast 2 exWide
      (by decide) (by decide) (by decide)]
    decide

/-- C9, amended: if slot `k` is unobserved (empty label) in one evidence array
and observed in another, with a label that is an outcome of the slot's
variable at an index other than 255 modulo 256 (any outcome of a variable with
at most 255 outcomes), then the keys `getProb` builds for the two differ: byte
`k + 1` is 255 in the first and the state index in the second. -/
theorem evidence_key_unobserved_ne_observed [LinearOrderedField R] (E : Env R) (s s' : State R)
    (fname : String) (target target' : node) (val val' : Nat → R) (ev1 ev2 : Nat → node)
    (nevidence k : Nat) (nw : DSL_network)
    (hptr : (getNetwork E s fname).2.ptr = some nw)
    (hptr' : (getNetwork E s' fname).2.ptr = some nw)
    (hk : k < nevidence)
    (h1 : (ev1 k).state = "")
    (h2 : (ev2 k).state ≠ "")
    (hmem : (ev2 k).state ∈ nw.outcomes (resolveId nw (ev2 k)).id)
    (hidx : (nw.outcomes (resolveId nw (ev2 k)).id).indexOf (ev2 k).state % 256 ≠ 255)
    (key1 key2 : List Nat)
    (hkey1 : (getProb E s fname target val (some ev1) nevidence).2.key = some key1)
    (hkey2 : (getProb E s' fname target' val' (some ev2) nevidence).2.key = some key2) :
    key1 ≠ key2 ∧ key1.get? (k + 1) = some 255 ∧
    key2.get? (k + 1)
      = some ((nw.outcomes (resolveId nw (ev2 k)).id).indexOf (ev2 k).state % 256) := by
  have e1 := getProb_key_inv E s fname target val ev1 nevidence nw hptr key1 hkey1
  have e2 := getProb_key_inv E s' fname target' val' ev2 nevidence nw hptr' key2 hkey2
  have b1 : key1.get? (k + 1) = some 255 := by
    rw [e1, evidence_key_slot _ _ _ _ hk]
    have hs : (resolveId nw (ev1 k)).state = "" := by rw [(resolveId_fields nw _).2.1]; exact h1
    simp only [setStateIds, resolveEvidenceIds, hk, if_true, setStateId, hs]
    rfl
  have b2 : key2.get? (k + 1)
      = some ((nw.outcomes (resolveId nw (ev2 k)).id).indexOf (ev2 k).state % 256) := by
    rw [e2, evidence_key_slot _ _ _ _ hk]
    have hs : (resolveId nw (ev2 k)).state = (ev2 k).state := (resolveId_fields nw _).2.1
    have hlt : (nw.outcomes (resolveId nw (ev2 k)).id).indexOf (ev2 k).state
        < (nw.outcomes (resolveId nw (ev2 k)).id).length := List.indexOf_lt_length.mpr hmem
    simp only [setStateIds, resolveEvidenceIds, hk, if_true, setStateId, hs, h2, if_false, hlt]
    rw [ub1_natCast]
  refine ⟨?_, b1, b2⟩
  intro h
  rw [h, b2] at b1
  exact hidx (Option.some.inj b1)

/-- C9, amended, on `exRain`: `Sprinkler` unobserved gives the key
`[0, 255, 255]`, `Sprinkler` observed as `On` gives `[0, 255, 0]`. -/
theorem evidence_key_unobserved_ne_observed_witness :
    (getProb exEnv (State.init ℚ) "rain.xdsl" exTarget (fun _ => 0)
      (some exSprinklerNone) 2).2.key = some [0, 255, 255] ∧
    (getProb exEnv (State.init ℚ) "rain.xdsl" exTarget (fun _ => 0)
      (some exSprinklerOn) 2).2.key = some [0, 255, 0] ∧
    ([0, 255, 255] : List Nat) ≠ [0, 255, 0] :=
  have k1 : (getProb exEnv (State.init ℚ) "rain.xdsl" exTarget (fun _ => 0)
      (some exSprinklerNone) 2).2.key = some [0, 255, 255] :=
    (getProb_key_some exEnv (State.init ℚ) "rain.xdsl" exTarget _ exSprinklerNone 2 exRain
      (by decide) (by decide) (by decide)).trans (by decide)
  have k2 : (getProb exEnv (State.init ℚ) "rain.xdsl" exTarget (fun _ => 0)
      (some exSprinklerOn) 2).2.key = some [0, 255, 0] :=
    (getProb_key_some exEnv (State.init ℚ) "rain.xdsl" exTarget _ exSprinklerOn 2 exRain
      (by decide) (by decide) (by decide)).trans (by decide)
  ⟨k1, k2,
    (evidence_key_unobserved_ne_observed exEnv (State.init ℚ) (State.init ℚ) "rain.xdsl"
      exTarget exTarget (fun _ => 0) (fun _ => 0) exSprinklerNone exSprinklerOn 2 1 exRain
      (by decide) (by decide) (by decide) (by decide) (by decide) (by decide) (by decide)
      [0, 255, 255] [0, 255, 0] k1 k2).1⟩

end Sentinel

/-! ## Order of the columns of the row -/

section RowOrder

/-- The head of `smile_infer` on `exRowA`: the evidence array observes
`Sprinkler = On`, and the key of the query is `[0, 255, 0]`. -/
theorem exRowA_key :
    smile_infer_key exEnv (State.init ℚ) "rain.xdsl" "Rain" exRowA exLocals
      = some [0, 255, 0] := by
  have he : smile_infer_evidence exEnv (State.init ℚ) "rain.xdsl" "Rain" exRowA exLocals
      = ((getNetwork exEnv (State.init ℚ) "rain.xdsl").1,
          .ok (⟨"Rain", 0, "", 0, 2⟩,
            Function.update (Function.update (fun _ => default) 0 ⟨"Rain", 0, "", -1, 2⟩) 1
              ⟨"Sprinkler", 1, "On", -1, 2⟩, 2)) := by
    rfl
  simp only [smile_infer_key, he]
  rw [getProb_key_some exEnv _ "rain.xdsl" _ _ _ 2 exRain (by decide) (by decide) (by decide)]
  decide

end RowOrder

/-! ## The cache outside the bucket of the key -/

section Frame

/-- The hit path of the tail of `getProb`. -/
theorem lookupOrInfer_hit [LinearOrderedField R] (E : Env R) (s : State R) (nw : DSL_network)
    (key : List Nat) (calls : List (Int × Int)) (target : node) (val : Nat → R)
    (evidence : Option (Nat → node))
    (h1 : 1 / 2 < prob_tot s.prob_hash ((E.hash key 0) &&& hashmask 16) target.count) :
    lookupOrInfer E s nw key calls target val evidence
      = (s, ⟨SMILE_OK, target,
          fun i => if i < target.count.toNat
            then cell s.prob_hash ((E.hash key 0) &&& hashmask 16) i else val i,
          evidence, some key⟩) := by
  simp only [lookupOrInfer, gt_iff_lt, h1, if_true]

/-- With a `count` of at most `MAX_UB1`, the tail of `getProb` writes the
cache in the row of its key only. -/
theorem lookupOrInfer_bucket_frame [LinearOrderedField R] (E : Env R) (s : State R)
    (nw : DSL_network) (key : List Nat) (calls : List (Int × Int)) (target : node)
    (val : Nat → R) (evidence : Option (Nat → node)) (h2 : Nat)
    (hne : (E.hash key 0) &&& hashmask 16 ≠ h2) (hc : target.count ≤ (MAX_UB1 : Int))
    (i : Nat) (hi : i < MAX_UB1) :
    cell (lookupOrInfer E s nw key calls target val evidence).1.prob_hash h2 i
      = cell s.prob_hash h2 i := by
  have hc1 : target.count.toNat ≤ MAX_UB1 := Int.toNat_le.mpr hc
  simp only [lookupOrInfer]
  split_ifs
  · rfl
  · split
    · split_ifs
      · rfl
      · dsimp only
        exact cell_storeRow_other _ _ _ _ _ i hne hc1 hi
    · rfl

/-- What the tail of `getProb` returns for a key depends on the cache through
the first `count` cells of the row of that key only. -/
theorem lookupOrInfer_bucket_congr [LinearOrderedField R] (E : Env R) (s s' : State R)
    (nw : DSL_network) (key : List Nat) (calls : List (Int × Int)) (target : node)
    (val : Nat → R) (evidence : Option (Nat → node))
    (hb : ∀ i, i < target.count.toNat →
      cell s'.prob_hash ((E.hash key 0) &&& hashmask 16) i
        = cell s.prob_hash ((E.hash key 0) &&& hashmask 16) i) :
    (lookupOrInfer E s' nw key calls target val evidence).2
      = (lookupOrInfer E s nw key calls target val evidence).2 := by
  have htot : prob_tot s'.prob_hash ((E.hash key 0) &&& hashmask 16) target.count
      = prob_tot s.prob_hash ((E.hash key 0) &&& hashmask 16) target.count := by
    rw [prob_tot_eq_sum, prob_tot_eq_sum]
    congr 1
    apply List.map_congr_left
    intro i hi
    exact hb i (List.mem_range.mp hi)
  by_cases h1 : 1 / 2 < prob_tot s.prob_hash ((E.hash key 0) &&& hashmask 16) target.count
  · rw [lookupOrInfer_hit E s nw key calls target val evidence h1,
      lookupOrInfer_hit E s' nw key calls target val evidence (by rw [htot]; exact h1)]
    show (⟨_, _, _, _, _⟩ : ProbResult R) = ⟨_, _, _, _, _⟩
    congr 1
    funext i
    by_cases hi : i < target.count.toNat
    · simp only [hi, if_true]
      exact hb i hi
    · simp only [hi, if_false]
  · have h1' : ¬ 1 / 2 < prob_tot s'.prob_hash ((E.hash key 0) &&& hashmask 16) target.count := by
      rw [htot]; exact h1
    simp only [lookupOrInfer, gt_iff_lt, h1, h1', if_false]
    split
    · split_ifs <;> rfl
    · rfl

/-- A call of `getProb` either leaves the cache alone or ends in the tail of
the function, with the key it reports and the resolved target. -/
theorem getProb_state [LinearOrderedField R] (E : Env R) (s : State R) (fname : String)
    (target : node) (val : Nat → R) (evidence : Option (Nat → node)) (nevidence : Nat) :
    ((getProb E s fname target val evidence nevidence).1 = (getNetwork E s fname).1 ∧
      (getProb E s fname target val evidence nevidence).2.key = none) ∨
    ∃ (nw : DSL_network) (key : List Nat) (calls : List (Int × Int))
      (ev1 : Option (Nat → node)),
      getProb E s fname target val evidence nevidence
        = lookupOrInfer E (getNetwork E s fname).1 nw key calls (resolveId nw target) val
            ev1 := by
  rcases hptr : (getNetwork E s fname).2.ptr with _ | nw
  · left
    rw [getProb_null E s fname target val evidence nevidence hptr]
    exact ⟨rfl, rfl⟩
  · rw [getProb_loaded E s fname target val evidence nevidence nw hptr]
    by_cases ht : target.id ≤ 0 ∧ (resolveId nw target).id = DSL_OUT_OF_RANGE
    · left
      rw [if_pos ht]
      exact ⟨rfl, rfl⟩
    · rw [if_neg ht]
      cases evidence with
      | none => exact Or.inr ⟨nw, _, _, _, rfl⟩
      | some ev =>
        simp only []
        by_cases hall : (resolveEvidenceIds nw ev nevidence).2 = false
        · left
          rw [if_pos hall]
          exact ⟨rfl, rfl⟩
        · rw [if_neg hall]
          exact Or.inr ⟨nw, _, _, _, rfl⟩

/-- A call of `getProb` with key `k1` and a `count` of at most `MAX_UB1` leaves
every other row of the cache as it was. -/
theorem getProb_bucket_frame [LinearOrderedField R] (E : Env R) (s : State R) (fname : String)
    (target : node) (val : Nat → R) (evidence : Option (Nat → node)) (nevidence : Nat)
    (k1 : List Nat) (hk1 : (getProb E s fname target val evidence nevidence).2.key = some k1)
    (hc : target.count ≤ (MAX_UB1 : Int))
    (h2 : Nat) (hne : (E.hash k1 0) &&& hashmask 16 ≠ h2) (i : Nat) (hi : i < MAX_UB1) :
    cell (getProb E s fname target val evidence nevidence).1.prob_hash h2 i
      = cell s.prob_hash h2 i := by
  rcases getProb_state E s fname target val evidence nevidence with ⟨_, e⟩ | ⟨nw, key, calls, ev1, e⟩
  · rw [e] at hk1
    exact absurd hk1 (by simp)
  · rw [e] at hk1 ⊢
    rw [lookupOrInfer_key] at hk1
    have hkey : key = k1 := Option.some.inj hk1
    rw [hkey]
    have hc' : (resolveId nw target).count ≤ (MAX_UB1 : Int) := by
      rw [(resolveId_fields nw target).2.2.2]; exact hc
    rw [lookupOrInfer_bucket_frame E _ nw k1 calls _ val ev1 h2 hne hc' i hi,
      (getNetwork_prob_hash E s fname).1]

/-- A call of `getProb` changes the registry as its call of `getNetwork` does. -/
theorem getProb_nets [LinearOrderedField R] (E : Env R) (s : State R) (fname : String)
    (target : node) (val : Nat → R) (evidence : Option (Nat → node)) (nevidence : Nat) :
    (getProb E s fname target val evidence nevidence).1.nets = (getNetwork E s fname).1.nets := by
  rcases getProb_state E s fname target val evidence nevidence with ⟨e, _⟩ | ⟨nw, key, calls, ev1, e⟩
  · rw [e]
  · rw [e]
    exact (lookupOrInfer_frame E _ nw key calls _ val ev1).2.2

/-- A slot that holds a network is left alone by every call of `getNetwork`. -/
theorem getNetwork_nets_loaded (E : Env R) (s : State R) (fname : String) (h : Nat)
    (hl : (s.nets h).ptr ≠ none) : (getNetwork E s fname).1.nets h = s.nets h := by
  simp only [getNetwork]
  split_ifs with h0
  · have hne : h ≠ (E.hash (cbytes fname) 0) &&& hashmask 10 := by
      intro e
      rw [e] at hl
      exact hl h0
    simp only [Function.update_noteq hne]
  · rfl

/-- Two states in which the file resolves to the same network without a load,
and whose caches agree on the first `count` cells of the row of the key, give
the same result. -/
theorem getProb_result_congr [LinearOrderedField R] (E : Env R) (s s' : State R)
    (fname : String) (target : node) (val : Nat → R) (evidence : Option (Nat → node))
    (nevidence : Nat) (n : net)
    (h0 : getNetwork E s fname = (s, n)) (h1 : getNetwork E s' fname = (s', n))
    (hb : ∀ k2, (getProb E s fname target val evidence nevidence).2.key = some k2 →
      ∀ i, i < target.count.toNat → cell s'.prob_hash ((E.hash k2 0) &&& hashmask 16) i
        = cell s.prob_hash ((E.hash k2 0) &&& hashmask 16) i) :
    (getProb E s' fname target val evidence nevidence).2
      = (getProb E s fname target val evidence nevidence).2 := by
  rcases hp : n.ptr with _ | nw
  · rw [getProb_null E s fname target val evidence nevidence (by rw [h0]; exact hp),
      getProb_null E s' fname target val evidence nevidence (by rw [h1]; exact hp)]
  · have hp0 : (getNetwork E s fname).2.ptr = some nw := by rw [h0]; exact hp
    have hp1 : (getNetwork E s' fname).2.ptr = some nw := by rw [h1]; exact hp
    have hcnt : (resolveId nw target).count = target.count := (resolveId_fields nw target).2.2.2
    have e0 := getProb_loaded E s fname target val evidence nevidence nw hp0
    have e1 := getProb_loaded E s' fname target val evidence nevidence nw hp1
    rw [h0] at e0
    rw [h1] at e1
    rw [e0] at hb
    rw [e0, e1]
    by_cases ht : target.id ≤ 0 ∧ (resolveId nw target).id = DSL_OUT_OF_RANGE
    · rw [if_pos ht, if_pos ht]
    · rw [if_neg ht, if_neg ht]
      rw [if_neg ht] at hb
      cases evidence with
      | none =>
        simp only [] at hb ⊢
        apply lookupOrInfer_bucket_congr E s s' nw _ _ _ val none
        rw [hcnt]
        exact hb _ (lookupOrInfer_key E s nw _ _ _ val none)
      | some ev =>
        simp only [] at hb ⊢
        by_cases hall : (resolveEvidenceIds nw ev nevidence).2 = false
        · rw [if_pos hall, if_pos hall]
        · rw [if_neg hall, if_neg hall]
          rw [if_neg hall] at hb
          apply lookupOrInfer_bucket_congr E s s' nw _ _ _ val _
          rw [hcnt]
          exact hb _ (lookupOrInfer_key E s nw _ _ _ val _)

/-- C11, amended: a call of `getProb` that uses the key `k1` with a
`target.count` of at most `MAX_UB1` leaves the row (the `MAX_UB1` cells) of
every key `k2` whose masked hash differs from that of `k1` as it was, so a
lookup of `k2` with a `count` of at most `MAX_UB1` has after the call the
outcome it had before: the tail of `getProb` run on `k2` returns the same
status and the same vector (the same hit, or the same result of the miss), and
so does a whole call of `getProb` with key `k2` for a file whose network is
loaded. Two keys whose masked hashes differ are different keys. -/
theorem getProb_store_frame [LinearOrderedField R] (E : Env R) (s : State R) (fname : String)
    (target : node) (val : Nat → R) (evidence : Option (Nat → node)) (nevidence : Nat)
    (k1 k2 : List Nat)
    (hk1 : (getProb E s fname target val evidence nevidence).2.key = some k1)
    (hh : (E.hash k1 0) &&& hashmask 16 ≠ (E.hash k2 0) &&& hashmask 16)
    (hc : target.count ≤ (MAX_UB1 : Int)) :
    k1 ≠ k2 ∧
    (∀ i, i < MAX_UB1 →
      cell (getProb E s fname target val evidence nevidence).1.prob_hash
          ((E.hash k2 0) &&& hashmask 16) i
        = cell s.prob_hash ((E.hash k2 0) &&& hashmask 16) i) ∧
    (∀ (nw2 : DSL_network) (calls2 : List (Int × Int)) (target2 : node) (val2 : Nat → R)
      (ev2 : Option (Nat → node)), target2.count ≤ (MAX_UB1 : Int) →
      (lookupOrInfer E (getProb E s fname target val evidence nevidence).1 nw2 k2 calls2
          target2 val2 ev2).2
        = (lookupOrInfer E s nw2 k2 calls2 target2 val2 ev2).2) ∧
    (∀ (fname2 : String) (target2 : node) (val2 : Nat → R) (evidence2 : Option (Nat → node))
      (nevidence2 : Nat), target2.count ≤ (MAX_UB1 : Int) →
      (s.nets ((E.hash (cbytes fname2) 0) &&& hashmask 10)).ptr ≠ none →
      (getProb E s fname2 target2 val2 evidence2 nevidence2).2.key = some k2 →
      (getProb E (getProb E s fname target val evidence nevidence).1 fname2 target2 val2
          evidence2 nevidence2).2
        = (getProb E s fname2 target2 val2 evidence2 nevidence2).2) := by
  have hbucket := getProb_bucket_frame E s fname target val evidence nevidence k1 hk1 hc
    ((E.hash k2 0) &&& hashmask 16) hh
  refine ⟨?_, hbucket, ?_, ?_⟩
  · intro e
    apply hh
    rw [e]
  · intro nw2 calls2 target2 val2 ev2 hc2
    apply lookupOrInfer_bucket_congr E s _ nw2 k2 calls2 target2 val2 ev2
    intro i hi
    exact hbucket i (lt_of_lt_of_le hi (Int.toNat_le.mpr hc2))
  · intro fname2 target2 val2 evidence2 nevidence2 hc2 hl hk2
    have h0 := getNetwork_loaded E s fname2 hl
    have hn : (getProb E s fname target val evidence nevidence).1.nets
        ((E.hash (cbytes fname2) 0) &&& hashmask 10)
        = s.nets ((E.hash (cbytes fname2) 0) &&& hashmask 10) := by
      rw [getProb_nets]
      exact getNetwork_nets_loaded E s fname _ hl
    have h1 := getNetwork_loaded E (getProb E s fname target val evidence nevidence).1 fname2
      (by rw [hn]; exact hl)
    rw [hn] at h1
    apply getProb_result_congr E s _ fname2 target2 val2 evidence2 nevidence2 _ h0 h1
    intro k hk i hi
    have : k = k2 := Option.some.inj (hk.symm.trans hk2)
    rw [this]
    exact hbucket i (lt_of_lt_of_le hi (Int.toNat_le.mpr hc2))

/-- C11, amended, with `rain.xdsl` loaded and targets of two outcomes: the
query with `Sprinkler = On` has the key `[0, 255, 0]`, the query without
evidence the key `[0, 255, 255]`; their rows differ, and the first query
leaves the outcome of the second as it was. -/
theorem getProb_store_frame_witness :
    ([0, 255, 0] : List Nat) ≠ [0, 255, 255] ∧
    cell (getProb exEnv exState1 "rain.xdsl" exTarget (fun _ => 0) (some exSprinklerOn) 2).1.prob_hash
        ((exEnv.hash [0, 255, 255] 0) &&& hashmask 16) 0
      = cell exState1.prob_hash ((exEnv.hash [0, 255, 255] 0) &&& hashmask 16) 0 ∧
    cell (getProb exEnv exState1 "rain.xdsl" exTarget (fun _ => 0) (some exSprinklerOn) 2).1.prob_hash
        ((exEnv.hash [0, 255, 255] 0) &&& hashmask 16) 1
      = cell exState1.prob_hash ((exEnv.hash [0, 255, 255] 0) &&& hashmask 16) 1 ∧
    (lookupOrInfer exEnv
        (getProb exEnv exState1 "rain.xdsl" exTarget (fun _ => 0) (some exSprinklerOn) 2).1
        exRain [0, 255, 255] [] exTarget (fun _ => 0) none).2
      = (lookupOrInfer exEnv exState1 exRain [0, 255, 255] [] exTarget (fun _ => 0) none).2 ∧
    (getProb exEnv
        (getProb exEnv exState1 "rain.xdsl" exTarget (fun _ => 0) (some exSprinklerOn) 2).1
        "rain.xdsl" exTarget (fun _ => 0) none 2).2
      = (getProb exEnv exState1 "rain.xdsl" exTarget (fun _ => 0) none 2).2 :=
  have h := getProb_store_frame exEnv exState1 "rain.xdsl" exTarget (fun _ => 0)
    (some exSprinklerOn) 2 [0, 255, 0] [0, 255, 255]
    ((getProb_key_some exEnv exState1 "rain.xdsl" exTarget _ exSprinklerOn 2 exRain
      (by decide) (by decide) (by decide)).trans (by decide))
    (by decide) (by decide)
  ⟨h.1, h.2.1 0 (by decide), h.2.1 1 (by decide),
    h.2.2.1 exRain [] exTarget (fun _ => 0) none (by decide),
    h.2.2.2 "rain.xdsl" exTarget (fun _ => 0) none 2 (by decide) (by decide)
      ((getProb_key_none exEnv exState1 "rain.xdsl" exTarget _ 2 exRain (by decide)
        (by decide)).trans (by decide))⟩

set_option maxRecDepth 100000 in
/-- With `big.xdsl` loaded, `getNetwork` returns its network, of id 0, and changes nothing. -/
theorem exBig_network :
    getNetwork exEnvBig exStateBig "big.xdsl" = (exStateBig, ⟨some exBig, 0⟩) := by
  rw [getNetwork_loaded exEnvBig exStateBig "big.xdsl" (by decide)]
  congr 1

set_option maxRecDepth 100000 in
/-- The cache of `exStateBig` is the zero-initialised array. -/
theorem exBig_cache_empty : exStateBig.prob_hash = fun _ => 0 :=
  (getNetwork_prob_hash exEnvBig (State.init ℚ) "big.xdsl").1

set_option maxRecDepth 100000 in
/-- The query for `Rain` (257 outcomes) with `Sprinkler = On` in `exStateBig`: a
miss that stores the 257 entries of the posterior from cell 0 of row 7905 on. -/
theorem exBig_first :
    getProb exEnvBig exStateBig "big.xdsl" exTargetBig (fun _ => 0) (some exBigOn) 2
      = ({ exStateBig with
            updates := exStateBig.updates + 1,
            prob_hash := storeRow exStateBig.prob_hash 7905 257 exBigVal },
         ⟨SMILE_OK, resolveId exBig exTargetBig, exBigVal,
           some (setStateIds exBig (resolveEvidenceIds exBig exBigOn 2).1 2),
           some [0, 255, 0]⟩) := by
  have hcnt : (resolveId exBig exTargetBig).count = 257 := by decide
  rw [getProb_loaded exEnvBig exStateBig "big.xdsl" exTargetBig _ (some exBigOn) 2 exBig
    (by decide), if_neg (by decide)]
  simp only []
  rw [if_neg (by decide), exBig_network]
  have hkey : evidence_key (exStateBig, (⟨some exBig, 0⟩ : net)).2.id
      (some (setStateIds exBig (resolveEvidenceIds exBig exBigOn 2).1 2)) 2 = [0, 255, 0] := by
    decide
  rw [hkey]
  rw [lookupOrInfer_miss exEnvBig _ exBig [0, 255, 0] _ _ _ _ (List.replicate 256 0 ++ [1])]
  · have hh : exEnvBig.hash [0, 255, 0] 0 &&& hashmask 16 = 7905 := by decide
    rw [hh, hcnt]
    rfl
  · rw [show (exStateBig, (⟨some exBig, 0⟩ : net)).1.prob_hash = fun _ => 0 from exBig_cache_empty,
      prob_tot_zero]
    norm_num
  · show (if (resolveId exBig exTargetBig).id = 0
        then some (List.replicate 256 (0 : ℚ) ++ [1]) else some [0, 1])
      = some (List.replicate 256 (0 : ℚ) ++ [1])
    rw [if_pos (by decide)]
  · rw [hcnt]
    simp


set_option maxRecDepth 100000 in
/-- After that store, row 7906 holds `1` in cell 0 (entry 256 of the posterior)
and `0` in cell 1. -/
theorem exBig_cells :
    cell (storeRow exStateBig.prob_hash 7905 257 exBigVal) 7906 0 = 1 ∧
    cell (storeRow exStateBig.prob_hash 7905 257 exBigVal) 7906 1 = 0 := by
  rw [exBig_cache_empty]
  constructor
  · simp [cell, storeRow, MAX_UB1, exBigVal]
  · simp [cell, storeRow, MAX_UB1]


set_option maxRecDepth 100000 in
/-- The query for `Sprinkler` with `Sprinkler = Off` in `exStateBig`: a miss
that returns the posterior `[0, 1]`. -/
theorem exBig_before :
    (getProb exEnvBig exStateBig "big.xdsl" exTarget2 (fun _ => 0) (some exBigOff) 2).2.status
      = SMILE_OK ∧
    (getProb exEnvBig exStateBig "big.xdsl" exTarget2 (fun _ => 0) (some exBigOff) 2).2.key
      = some [0, 255, 1] ∧
    (getProb exEnvBig exStateBig "big.xdsl" exTarget2 (fun _ => 0) (some exBigOff) 2).2.val 0
      = 0 ∧
    (getProb exEnvBig exStateBig "big.xdsl" exTarget2 (fun _ => 0) (some exBigOff) 2).2.val 1
      = 1 := by
  have hcnt : (resolveId exBig exTarget2).count = 2 := by decide
  have e : getProb exEnvBig exStateBig "big.xdsl" exTarget2 (fun _ => 0) (some exBigOff) 2
      = ({ exStateBig with
            updates := exStateBig.updates + 1,
            prob_hash := storeRow exStateBig.prob_hash
              (exEnvBig.hash [0, 255, 1] 0 &&& hashmask 16)
              (resolveId exBig exTarget2).count.toNat
              (fun i => if i < ([0, 1] : List ℚ).length then ([0, 1] : List ℚ).getD i 0 else 0) },
         ⟨SMILE_OK, resolveId exBig exTarget2,
           fun i => if i < ([0, 1] : List ℚ).length then ([0, 1] : List ℚ).getD i 0 else 0,
           some (setStateIds exBig (resolveEvidenceIds exBig exBigOff 2).1 2),
           some [0, 255, 1]⟩) := by
    rw [getProb_loaded exEnvBig exStateBig "big.xdsl" exTarget2 _ (some exBigOff) 2 exBig
      (by decide), if_neg (by decide)]
    simp only []
    rw [if_neg (by decide), exBig_network]
    have hkey : evidence_key (exStateBig, (⟨some exBig, 0⟩ : net)).2.id
        (some (setStateIds exBig (resolveEvidenceIds exBig exBigOff 2).1 2)) 2
        = [0, 255, 1] := by
      decide
    rw [hkey]
    rw [lookupOrInfer_miss exEnvBig _ exBig [0, 255, 1] _ _ _ _ [0, 1]]
    · rw [show (exStateBig, (⟨some exBig, 0⟩ : net)).1.prob_hash = fun _ => 0
        from exBig_cache_empty, prob_tot_zero]
      norm_num
    · show (if (resolveId exBig exTarget2).id = 0
          then some (List.replicate 256 (0 : ℚ) ++ [1]) else some [0, 1])
        = some ([0, 1] : List ℚ)
      rw [if_neg (by decide)]
    · rw [hcnt]
      rfl
  rw [e]
  refine ⟨rfl, rfl, ?_, ?_⟩ <;> simp

set_option maxRecDepth 100000 in
/-- The same query after the query for `Rain`: a hit that returns `[1, 0]`. -/
theorem exBig_after :
    (getProb exEnvBig
      (getProb exEnvBig exStateBig "big.xdsl" exTargetBig (fun _ => 0) (some exBigOn) 2).1
      "big.xdsl" exTarget2 (fun _ => 0) (some exBigOff) 2).2.status = SMILE_OK ∧
    (getProb exEnvBig
      (getProb exEnvBig exStateBig "big.xdsl" exTargetBig (fun _ => 0) (some exBigOn) 2).1
      "big.xdsl" exTarget2 (fun _ => 0) (some exBigOff) 2).2.key = some [0, 255, 1] ∧
    (getProb exEnvBig
      (getProb exEnvBig exStateBig "big.xdsl" exTargetBig (fun _ => 0) (some exBigOn) 2).1
      "big.xdsl" exTarget2 (fun _ => 0) (some exBigOff) 2).2.val 0 = 1 ∧
    (getProb exEnvBig
      (getProb exEnvBig exStateBig "big.xdsl" exTargetBig (fun _ => 0) (some exBigOn) 2).1
      "big.xdsl" exTarget2 (fun _ => 0) (some exBigOff) 2).2.val 1 = 0 := by
  have hcnt : (resolveId exBig exTarget2).count = 2 := by decide
  have hh : exEnvBig.hash [0, 255, 1] 0 &&& hashmask 16 = 7906 := by decide
  rw [exBig_first]
  simp only []
  have hnet : getNetwork exEnvBig
      { exStateBig with
        updates := exStateBig.updates + 1,
        prob_hash := storeRow exStateBig.prob_hash 7905 257 exBigVal } "big.xdsl"
      = ({ exStateBig with
            updates := exStateBig.updates + 1,
            prob_hash := storeRow exStateBig.prob_hash 7905 257 exBigVal },
          ⟨some exBig, 0⟩) := by
    rw [getNetwork_loaded exEnvBig _ "big.xdsl" (by decide)]
    congr 1
  have e : getProb exEnvBig
      { exStateBig with
        updates := exStateBig.updates + 1,
        prob_hash := storeRow exStateBig.prob_hash 7905 257 exBigVal }
      "big.xdsl" exTarget2 (fun _ => 0) (some exBigOff) 2
      = ({ exStateBig with
            updates := exStateBig.updates + 1,
            prob_hash := storeRow exStateBig.prob_hash 7905 257 exBigVal },
         ⟨SMILE_OK, resolveId exBig exTarget2,
           fun i => if i < (resolveId exBig exTarget2).count.toNat
             then cell (storeRow exStateBig.prob_hash 7905 257 exBigVal)
               (exEnvBig.hash [0, 255, 1] 0 &&& hashmask 16) i else 0,
           some (setStateIds exBig (resolveEvidenceIds exBig exBigOff 2).1 2),
           some [0, 255, 1]⟩) := by
    rw [getProb_loaded exEnvBig _ "big.xdsl" exTarget2 _ (some exBigOff) 2 exBig
      (by rw [hnet]), if_neg (by decide)]
    simp only []
    rw [if_neg (by decide), hnet]
    have hkey : evidence_key
        (({ exStateBig with
            updates := exStateBig.updates + 1,
            prob_hash := storeRow exStateBig.prob_hash 7905 257 exBigVal } : State ℚ),
          (⟨some exBig, 0⟩ : net)).2.id
        (some (setStateIds exBig (resolveEvidenceIds exBig exBigOff 2).1 2)) 2
        = [0, 255, 1] := by
      decide
    rw [hkey]
    rw [lookupOrInfer_hit exEnvBig _ exBig [0, 255, 1] _ _ _ _]
    rw [prob_tot_eq_sum, hcnt, hh, show Int.toNat 2 = 2 from rfl]
    simp only [List.range_succ, List.range_zero, List.nil_append,
      List.cons_append, List.map_cons, List.map_nil, List.sum_cons, List.sum_nil,
      exBig_cells.1, exBig_cells.2]
    norm_num
  rw [e]
  refine ⟨rfl, rfl, ?_, ?_⟩
  · show (if 0 < (resolveId exBig exTarget2).count.toNat
        then cell (storeRow exStateBig.prob_hash 7905 257 exBigVal)
          (exEnvBig.hash [0, 255, 1] 0 &&& hashmask 16) 0 else 0) = 1
    rw [hcnt, hh, if_pos (by decide)]
    exact exBig_cells.1
  · show (if 1 < (resolveId exBig exTarget2).count.toNat
        then cell (storeRow exStateBig.prob_hash 7905 257 exBigVal)
          (exEnvBig.hash [0, 255, 1] 0 &&& hashmask 16) 1 else 0) = 0
    rw [hcnt, hh, if_pos (by decide)]
    exact exBig_cells.2

set_option maxRecDepth 100000 in
/-- C11 as stated fails for a target of more than `MAX_UB1` outcomes: in
`exStateBig` the query for `Rain` (257 outcomes, labels of two letters, all
different) with `Sprinkler = On` has the key `[0, 255, 0]`, of masked hash
7905; the key `[0, 255, 1]` of the query with `Sprinkler = Off` has the masked
hash 7906. The store of the first query writes entry 256 of the posterior into
`prob_hash[7905][256]`, which is `prob_hash[7906][0]`: that cell of the bucket
of the second key was 0 and is 1 afterwards, and the query for `Sprinkler`
with `Sprinkler = Off`, which returned `[0, 1]` before, returns `[1, 0]`. -/
theorem getProb_store_overflows_row :
    exTargetBig.count = 257 ∧ (exBig.outcomes 0).length = 257 ∧ (exBig.outcomes 0).Nodup ∧
    (getProb exEnvBig exStateBig "big.xdsl" exTargetBig (fun _ => 0) (some exBigOn) 2).2.status
      = SMILE_OK ∧
    (getProb exEnvBig exStateBig "big.xdsl" exTargetBig (fun _ => 0) (some exBigOn) 2).2.key
      = some [0, 255, 0] ∧
    exEnvBig.hash [0, 255, 0] 0 &&& hashmask 16 = 7905 ∧
    exEnvBig.hash [0, 255, 1] 0 &&& hashmask 16 = 7906 ∧
    cell exStateBig.prob_hash 7906 0 = 0 ∧
    cell (getProb exEnvBig exStateBig "big.xdsl" exTargetBig (fun _ => 0) (some exBigOn) 2).1.prob_hash
      7906 0 = 1 ∧
    (getProb exEnvBig exStateBig "big.xdsl" exTarget2 (fun _ => 0) (some exBigOff) 2).2.key
      = some [0, 255, 1] ∧
    (getProb exEnvBig exStateBig "big.xdsl" exTarget2 (fun _ => 0) (some exBigOff) 2).2.val 0
      = 0 ∧
    (getProb exEnvBig exStateBig "big.xdsl" exTarget2 (fun _ => 0) (some exBigOff) 2).2.val 1
      = 1 ∧
    (getProb exEnvBig
      (getProb exEnvBig exStateBig "big.xdsl" exTargetBig (fun _ => 0) (some exBigOn) 2).1
      "big.xdsl" exTarget2 (fun _ => 0) (some exBigOff) 2).2.key = some [0, 255, 1] ∧
    (getProb exEnvBig
      (getProb exEnvBig exStateBig "big.xdsl" exTargetBig (fun _ => 0) (some exBigOn) 2).1
      "big.xdsl" exTarget2 (fun _ => 0) (some exBigOff) 2).2.val 0 = 1 ∧
    (getProb exEnvBig
      (getProb exEnvBig exStateBig "big.xdsl" exTargetBig (fun _ => 0) (some exBigOn) 2).1
      "big.xdsl" exTarget2 (fun _ => 0) (some exBigOff) 2).2.val 1 = 0 := by
  have hnd : (exBig.outcomes 0).Nodup := exLabel_nodup
  have h0 : cell exStateBig.prob_hash 7906 0 = 0 := by
    rw [exBig_cache_empty]
    rfl
  have h1 : cell (getProb exEnvBig exStateBig "big.xdsl" exTargetBig (fun _ => 0) (some exBigOn) 2).1.prob_hash
      7906 0 = 1 := by
    rw [exBig_first]
    exact exBig_cells.1
  have hs : (getProb exEnvBig exStateBig "big.xdsl" exTargetBig (fun _ => 0) (some exBigOn) 2).2.status
      = SMILE_OK := by
    rw [exBig_first]
  have hk : (getProb exEnvBig exStateBig "big.xdsl" exTargetBig (fun _ => 0) (some exBigOn) 2).2.key
      = some [0, 255, 0] := by
    rw [exBig_first]
  exact ⟨by decide, by decide, hnd, hs, hk, by decide, by decide, h0, h1,
    exBig_before.2.1, exBig_before.2.2.1, exBig_before.2.2.2,
    exBig_after.2.1, exBig_after.2.2.1, exBig_after.2.2.2⟩

end Frame

/-! ## The key and the target -/

section TargetFree

/-- After a run of the tail of `getProb` that returned `SMILE_OK` with a
vector of sum above one half, a run with the same key is a hit on that vector
for every target of the same `count`, whatever the network and the evidence
calls. -/
theorem lookupOrInfer_hit_stored [LinearOrderedField R] (E : Env R) (s : State R)
    (nw : DSL_network) (key : List Nat) (calls : List (Int × Int)) (target : node)
    (val : Nat → R) (evidence : Option (Nat → node))
    (hok : (lookupOrInfer E s nw key calls target val evidence).2.status = SMILE_OK)
    (hsum : 1 / 2 < ((List.range target.count.toNat).map
      (lookupOrInfer E s nw key calls target val evidence).2.val).sum)
    (s2 : State R) (nw2 : DSL_network) (calls2 : List (Int × Int)) (target2 : node)
    (val2 : Nat → R) (evidence2 : Option (Nat → node))
    (hs2 : s2.prob_hash = (lookupOrInfer E s nw key calls target val evidence).1.prob_hash)
    (hc : target2.count = target.count) :
    lookupOrInfer E s2 nw2 key calls2 target2 val2 evidence2
      = (s2, ⟨SMILE_OK, target2,
          fun i => if i < target2.count.toNat
            then (lookupOrInfer E s nw key calls target val evidence).2.val i else val2 i,
          evidence2, some key⟩) := by
  obtain ⟨hst, hhit0⟩ := lookupOrInfer_stored E s nw key calls target val evidence hok hsum
  rw [← hs2] at hst hhit0
  have hval : ∀ i, i < target.count.toNat →
      cell s2.prob_hash ((E.hash key 0) &&& hashmask 16) i
        = (lookupOrInfer E s nw key calls target val evidence).2.val i := hst
  have hhit : 1 / 2 < prob_tot s2.prob_hash ((E.hash key 0) &&& hashmask 16) target.count :=
    hhit0
  simp only [lookupOrInfer, gt_iff_lt, hc, hhit, if_true]
  congr 2
  funext i
  by_cases hi : i < target.count.toNat
  · simp only [hi, if_true]
    exact hval i hi
  · simp only [hi, if_false]

/-- A call of `getProb` that returned `SMILE_OK` fixes the key for the file
and the evidence: a later call for any target that resolves, with the evidence
as passed or as the first call left it, in a state with the same registry,
runs the tail of the function with the key of the first call. -/
theorem getProb_ok_tail_any [LinearOrderedField R] (E : Env R) (s : State R) (fname : String)
    (target : node) (val : Nat → R) (evidence : Option (Nat → node)) (nevidence : Nat)
    (hok : (getProb E s fname target val evidence nevidence).2.status = SMILE_OK) :
    ∃ (nw : DSL_network) (key : List Nat) (calls : List (Int × Int))
      (ev1 : Option (Nat → node)),
      (getNetwork E s fname).2.ptr = some nw ∧
      getProb E s fname target val evidence nevidence
        = lookupOrInfer E (getNetwork E s fname).1 nw key calls (resolveId nw target) val ev1 ∧
      ∀ (s2 : State R) (t2 : node) (val2 : Nat → R),
        s2.nets = (getNetwork E s fname).1.nets →
        ¬ (t2.id ≤ 0 ∧ (resolveId nw t2).id = DSL_OUT_OF_RANGE) →
        getProb E s2 fname t2 val2 evidence nevidence
          = lookupOrInfer E s2 nw key calls (resolveId nw t2) val2 ev1 ∧
        getProb E s2 fname t2 val2 ev1 nevidence
          = lookupOrInfer E s2 nw key calls (resolveId nw t2) val2 ev1 := by
  rcases hptr : (getNetwork E s fname).2.ptr with _ | nw
  · rw [getProb_null E s fname target val evidence nevidence hptr] at hok
    exact absurd (show SMILE_BAD_XDSL = SMILE_OK from hok) (by decide)
  · have hne : (getNetwork E s fname).2.ptr ≠ none := by simp [hptr]
    have hagain : ∀ s2 : State R, s2.nets = (getNetwork E s fname).1.nets →
        getNetwork E s2 fname = (s2, (getNetwork E s fname).2) :=
      fun s2 h2 => getNetwork_again E s s2 fname hne h2
    have e1 := getProb_loaded E s fname target val evidence nevidence nw hptr
    by_cases ht : target.id ≤ 0 ∧ (resolveId nw target).id = DSL_OUT_OF_RANGE
    · rw [e1, if_pos ht] at hok
      exact absurd (show SMILE_BAD_TARGET_NAME = SMILE_OK from hok) (by decide)
    · rw [if_neg ht] at e1
      cases evidence with
      | none =>
        refine ⟨nw, _, _, none, rfl, e1, ?_⟩
        intro s2 t2 val2 hs2 ht2
        have hptr2 : (getNetwork E s2 fname).2.ptr = some nw := by rw [hagain s2 hs2]; exact hptr
        have e2 : getProb E s2 fname t2 val2 none nevidence
            = lookupOrInfer E s2 nw (evidence_key (getNetwork E s fname).2.id none nevidence) []
                (resolveId nw t2) val2 none := by
          rw [getProb_loaded E s2 fname t2 val2 none nevidence nw hptr2, if_neg ht2,
            hagain s2 hs2]
        exact ⟨e2, e2⟩
      | some ev =>
        simp only at e1
        by_cases hall : (resolveEvidenceIds nw ev nevidence).2 = false
        · rw [e1, if_pos hall] at hok
          exact absurd (show SMILE_BAD_EVIDENCE_NAME = SMILE_OK from hok) (by decide)
        · rw [if_neg hall] at e1
          have hall1 : (resolveEvidenceIds nw ev nevidence).2 = true := by simpa using hall
          obtain ⟨p1, p2, p3⟩ := evidence_prepared nw ev nevidence hall1
          refine ⟨nw, _, _, _, rfl, e1, ?_⟩
          intro s2 t2 val2 hs2 ht2
          have hptr2 : (getNetwork E s2 fname).2.ptr = some nw := by
            rw [hagain s2 hs2]; exact hptr
          constructor
          · rw [getProb_loaded E s2 fname t2 val2 _ nevidence nw hptr2, if_neg ht2,
              hagain s2 hs2]
            simp only [hall1, Bool.true_eq_false, if_false]
          · rw [getProb_loaded E s2 fname t2 val2 _ nevidence nw hptr2, if_neg ht2,
              hagain s2 hs2]
            simp only [p1, p2, p3, Bool.true_eq_false, if_false]

/-- C12: the key has no byte for the target. Once a call of `getProb` for the
target `t1` has returned `SMILE_OK` with a vector whose first `count` entries
sum to more than one half (a posterior, stored in the bucket of the key on a
miss), a call with the same file and evidence for any other target `t2` that
resolves and has the same `count` builds the same key, returns `SMILE_OK` with
the entries of the vector of `t1`, and changes no static: it is a hit, with no
call of `UpdateBeliefs`. This holds with the evidence array as passed to the
first call and as the first call left it. -/
theorem getProb_hit_ignores_target [LinearOrderedField R] (E : Env R) (s : State R)
    (fname : String) (t1 t2 : node) (val val2 : Nat → R) (evidence : Option (Nat → node))
    (nevidence : Nat)
    (hok : (getProb E s fname t1 val evidence nevidence).2.status = SMILE_OK)
    (hsum : 1 / 2 < ((List.range t1.count.toNat).map
      (getProb E s fname t1 val evidence nevidence).2.val).sum)
    (hcount : t2.count = t1.count)
    (ht2 : ∀ nw, (getNetwork E s fname).2.ptr = some nw →
      ¬ (t2.id ≤ 0 ∧ nw.FindNode t2.name = DSL_OUT_OF_RANGE)) :
    (getProb E (getProb E s fname t1 val evidence nevidence).1 fname t2 val2
        evidence nevidence).2.status = SMILE_OK ∧
    (∀ i, i < t1.count.toNat →
      (getProb E (getProb E s fname t1 val evidence nevidence).1 fname t2 val2
        evidence nevidence).2.val i
        = (getProb E s fname t1 val evidence nevidence).2.val i) ∧
    (getProb E (getProb E s fname t1 val evidence nevidence).1 fname t2 val2
        evidence nevidence).2.key
      = (getProb E s fname t1 val evidence nevidence).2.key ∧
    (getProb E (getProb E s fname t1 val evidence nevidence).1 fname t2 val2
        evidence nevidence).1
      = (getProb E s fname t1 val evidence nevidence).1 ∧
    (getProb E (getProb E s fname t1 val evidence nevidence).1 fname t2 val2
        (getProb E s fname t1 val evidence nevidence).2.evidence nevidence).2.status = SMILE_OK ∧
    (∀ i, i < t1.count.toNat →
      (getProb E (getProb E s fname t1 val evidence nevidence).1 fname t2 val2
        (getProb E s fname t1 val evidence nevidence).2.evidence nevidence).2.val i
        = (getProb E s fname t1 val evidence nevidence).2.val i) ∧
    (getProb E (getProb E s fname t1 val evidence nevidence).1 fname t2 val2
        (getProb E s fname t1 val evidence nevidence).2.evidence nevidence).1
      = (getProb E s fname t1 val evidence nevidence).1 := by
  obtain ⟨nw, key, calls, ev1, hptr, e1, e2⟩ :=
    getProb_ok_tail_any E s fname t1 val evidence nevidence hok
  have ht2' : ¬ (t2.id ≤ 0 ∧ (resolveId nw t2).id = DSL_OUT_OF_RANGE) := by
    rintro ⟨h1, h2⟩
    apply ht2 nw hptr
    refine ⟨h1, ?_⟩
    simpa [resolveId, h1] using h2
  rw [e1] at hok hsum ⊢
  obtain ⟨_, f2, f3⟩ := lookupOrInfer_frame E (getNetwork E s fname).1 nw key calls
    (resolveId nw t1) val ev1
  have hc1 : (resolveId nw t1).count = t1.count := (resolveId_fields nw t1).2.2.2
  have hc2 : (resolveId nw t2).count = (resolveId nw t1).count := by
    rw [(resolveId_fields nw t2).2.2.2, hc1, hcount]
  rw [← hc1] at hsum
  have e3 := lookupOrInfer_hit_stored E (getNetwork E s fname).1 nw key calls
    (resolveId nw t1) val ev1 hok hsum _ nw calls (resolveId nw t2) val2 ev1 rfl hc2
  obtain ⟨q1, q2⟩ := e2 _ t2 val2 f3 ht2'
  rw [f2, q1, q2, e3, lookupOrInfer_key]
  have hv : ∀ i, i < t1.count.toNat →
      (if i < (resolveId nw t2).count.toNat
        then (lookupOrInfer E (getNetwork E s fname).1 nw key calls (resolveId nw t1) val
          ev1).2.val i
        else val2 i)
      = (lookupOrInfer E (getNetwork E s fname).1 nw key calls (resolveId nw t1) val
          ev1).2.val i := by
    intro i hi
    rw [hc2, hc1, if_pos hi]
  exact ⟨rfl, hv, rfl, rfl, rfl, hv, rfl⟩

/-- C12 on the scenario: after the first query for `Rain` without evidence has
stored `[0.3, 0.7]`, the query for `Sprinkler` without evidence returns
`SMILE_OK` and `[0.3, 0.7]` with the same key, and changes no static. -/
theorem getProb_hit_ignores_target_witness :
    (getProb exEnv (getProb exEnv (State.init ℚ) "rain.xdsl" exTarget (fun _ => 0) none 2).1
        "rain.xdsl" exTarget2 (fun _ => 0) none 2).2.status = SMILE_OK ∧
    (getProb exEnv (getProb exEnv (State.init ℚ) "rain.xdsl" exTarget (fun _ => 0) none 2).1
        "rain.xdsl" exTarget2 (fun _ => 0) none 2).2.val 0 = 3 / 10 ∧
    (getProb exEnv (getProb exEnv (State.init ℚ) "rain.xdsl" exTarget (fun _ => 0) none 2).1
        "rain.xdsl" exTarget2 (fun _ => 0) none 2).2.val 1 = 7 / 10 ∧
    (getProb exEnv (getProb exEnv (State.init ℚ) "rain.xdsl" exTarget (fun _ => 0) none 2).1
        "rain.xdsl" exTarget2 (fun _ => 0) none 2).2.key
      = (getProb exEnv (State.init ℚ) "rain.xdsl" exTarget (fun _ => 0) none 2).2.key ∧
    (getProb exEnv (getProb exEnv (State.init ℚ) "rain.xdsl" exTarget (fun _ => 0) none 2).1
        "rain.xdsl" exTarget2 (fun _ => 0) none 2).1
      = (getProb exEnv (State.init ℚ) "rain.xdsl" exTarget (fun _ => 0) none 2).1 :=
  have h := getProb_hit_ignores_target exEnv (State.init ℚ) "rain.xdsl" exTarget exTarget2
    (fun _ => 0) (fun _ => 0) none 2 exRun_first.1
    (by
      have h := exRun_first
      have e : exTarget.count.toNat = 2 := by decide
      rw [e]
      simp only [List.range_succ, List.range_zero, List.nil_append, List.cons_append,
        List.map_cons, List.map_nil, List.sum_cons, List.sum_nil, h.2.1, h.2.2]
      norm_num)
    (by decide)
    (by
      intro nw hnw
      have e : nw = exRain :=
        Option.some.inj (hnw.symm.trans (by decide))
      rw [e]
      decide)
  ⟨h.1, (h.2.1 0 (by decide)).trans exRun_first.2.1,
    (h.2.1 1 (by decide)).trans exRun_first.2.2, h.2.2.1, h.2.2.2.1⟩

end TargetFree

end PgSmile
